import Mathlib

/-!
# nvidia-peermem: the peer-memory client of `src/nvidia-peermem/nvidia-peermem.c`

A shallow embedding of the seven client operations and the two invalidation
callbacks of the NVIDIA peer-memory plug-in, followed by theorems about them.

Conventions of the embedding

* A C pointer to a structure is an `Option` of the structure: `none` is `NULL`.
  A function that dereferences a pointer without checking it returns `none`
  (a fault) when that pointer is `NULL`.
* Machine integers are `Nat` / `Int`; a value read from a field or parameter
  is taken to fit its C type, and where an operation can wrap or narrow the
  reduction is written out (`% 2 ^ 64`, `% 2 ^ 32`, `to_int`).
* Every call that leaves the module (Pinning Service, DMA Mapping Service,
  upstream notification, scatterlist and slab allocator) and the `WRITE_ONCE`
  on the invalidation flag is appended to `Kernel.log` in program order.
  What the outside world answers is read from an `Env`; each answer may depend
  on the whole history so far, so the services are arbitrary and stateful.
* `peer_err` only prints; the line is recorded in `Kernel.dmesg` by its source
  line number and has no other effect.
* The module reference count of `THIS_MODULE` is `Kernel.refcnt`.
-/

namespace NvPeermem

/-! ## Constants -/

/-- The errno value `EINVAL` of `linux/errno.h`. -/
def EINVAL : Int := 22

/-- The constant `GPU_PAGE_SHIFT` (line 61). -/
def GPU_PAGE_SHIFT : Nat := 16

/-- The constant `GPU_PAGE_SIZE`, `(u64)1 << GPU_PAGE_SHIFT` (line 62). -/
def GPU_PAGE_SIZE : Nat := (1 <<< GPU_PAGE_SHIFT) % 2 ^ 64

/-- The constant `GPU_PAGE_OFFSET`, `GPU_PAGE_SIZE-1` (line 63). -/
def GPU_PAGE_OFFSET : Nat := GPU_PAGE_SIZE - 1

/-- The constant `GPU_PAGE_MASK`, the 64-bit complement of `GPU_PAGE_OFFSET` (line 64). -/
def GPU_PAGE_MASK : Nat := 2 ^ 64 - 1 - GPU_PAGE_OFFSET

/-- Conversion of an unsigned value to a C `int` (32 bit, two's complement). -/
def to_int (n : Nat) : Int :=
  if n % 2 ^ 32 < 2 ^ 31 then ((n % 2 ^ 32 : Nat) : Int) else ((n % 2 ^ 32 : Nat) : Int) - 2 ^ 32

/-! ## Data model -/

/-- The fields of `struct nvidia_p2p_page_table` the client reads, with the
address that identifies the handle. -/
structure nvidia_p2p_page_table where
  addr : Nat
  page_size : Nat
  deriving DecidableEq, Repr

/-- The fields of `struct nvidia_p2p_dma_mapping` the client reads, with the
address that identifies the handle. `dma_addresses` is the array the
structure points to. -/
structure nvidia_p2p_dma_mapping where
  addr : Nat
  version : Nat
  entries : Nat
  dma_addresses : List Nat
  deriving DecidableEq, Repr

/-- One entry of a scatter-gather list (`struct scatterlist`); `page = none`
is a `NULL` page pointer. -/
structure scatterlist where
  page : Option Nat
  offset : Nat
  length : Nat
  dma_address : Nat
  dma_length : Nat
  deriving DecidableEq, Repr

/-- The caller's `struct sg_table`: the entry list `sgl` (empty: no table). -/
structure sg_table where
  sgl : List scatterlist
  deriving DecidableEq, Repr

/-- The descriptor `struct nv_mem_context` (lines 69-80). -/
structure nv_mem_context where
  page_table : Option nvidia_p2p_page_table
  dma_mapping : Option nvidia_p2p_dma_mapping
  core_context : Nat
  page_virt_start : Nat
  page_virt_end : Nat
  mapped_size : Nat
  npages : Nat
  page_size : Nat
  is_callback : Int
  sg_allocated : Int
  deriving DecidableEq, Repr

/-- The two functions the client hands to the Pinning Service as `free_callback`. -/
inductive free_callback where
  | nv_get_p2p_free_callback
  | nv_mem_dummy_callback
  deriving DecidableEq, Repr

/-- The effects that leave the module, one constructor per callee, with the
arguments of the call. `write_once_is_callback` is the store to the flag. -/
inductive Event where
  | kzalloc
  | kfree
  | nvidia_p2p_get_pages (virtual_address length : Nat) (cb : free_callback)
  | nvidia_p2p_put_pages (virtual_address : Nat) (page_table : Option nvidia_p2p_page_table)
  | nvidia_p2p_free_page_table (page_table : Option nvidia_p2p_page_table)
  | nvidia_p2p_dma_map_pages (peer : Nat) (page_table : nvidia_p2p_page_table)
  | nvidia_p2p_dma_unmap_pages (peer : Option Nat) (page_table : Option nvidia_p2p_page_table)
      (dma_mapping : nvidia_p2p_dma_mapping)
  | nvidia_p2p_free_dma_mapping (dma_mapping : nvidia_p2p_dma_mapping)
  | sg_alloc_table (nents : Nat)
  | sg_free_table
  | write_once_is_callback (val : Int)
  | mem_invalidate_callback (reg_handle core_context : Nat)
  deriving DecidableEq, Repr

/-- What lies outside the file: the two items of `nv-p2p.h` the client uses
(the enumerator `NVIDIA_P2P_PAGE_SIZE_64KB` and the version test
`NVIDIA_P2P_DMA_MAPPING_VERSION_COMPATIBLE`), the global `reg_handle`, and
the answers of the services. Every answer is a function of the history of
effects so far and of the arguments of the call. For `nvidia_p2p_get_pages`
and `nvidia_p2p_dma_map_pages` the second component is the pointer the
service stores through its output parameter. -/
structure Env where
  NVIDIA_P2P_PAGE_SIZE_64KB : Nat
  NVIDIA_P2P_DMA_MAPPING_VERSION_COMPATIBLE : nvidia_p2p_dma_mapping → Bool
  reg_handle : Nat
  kzalloc : List Event → Bool
  nvidia_p2p_get_pages : List Event → Nat → Nat → free_callback →
    Int × Option nvidia_p2p_page_table
  nvidia_p2p_put_pages : List Event → Nat → Option nvidia_p2p_page_table → Int
  nvidia_p2p_free_page_table : List Event → Option nvidia_p2p_page_table → Int
  nvidia_p2p_dma_map_pages : List Event → Nat → nvidia_p2p_page_table →
    Int × Option nvidia_p2p_dma_mapping
  nvidia_p2p_dma_unmap_pages : List Event → Option Nat → Option nvidia_p2p_page_table →
    nvidia_p2p_dma_mapping → Int
  nvidia_p2p_free_dma_mapping : List Event → nvidia_p2p_dma_mapping → Int
  sg_alloc_table : List Event → Nat → Int

/-- The state outside the descriptor: the effect history, the printed
diagnostics (by source line) and the reference count of `THIS_MODULE`. -/
structure Kernel where
  log : List Event
  dmesg : List Nat
  refcnt : Int
  deriving DecidableEq, Repr

/-- Append one effect to the history. -/
def emit (e : Event) (k : Kernel) : Kernel :=
  { k with log := k.log ++ [e] }

/-- The diagnostic `peer_err` issued at source line `line`. -/
def peer_err (line : Nat) (k : Kernel) : Kernel :=
  { k with dmesg := k.dmesg ++ [line] }

/-- The kernel call `__module_get(THIS_MODULE)`. -/
def __module_get (k : Kernel) : Kernel :=
  { k with refcnt := k.refcnt + 1 }

/-- The kernel call `module_put(THIS_MODULE)`. -/
def module_put (k : Kernel) : Kernel :=
  { k with refcnt := k.refcnt - 1 }

/-- The descriptor `kzalloc` returns: every field zero. -/
def zeroed_context : nv_mem_context :=
  { page_table := none, dma_mapping := none, core_context := 0, page_virt_start := 0,
    page_virt_end := 0, mapped_size := 0, npages := 0, page_size := 0,
    is_callback := 0, sg_allocated := 0 }

/-- A zeroed scatterlist entry, as `sg_alloc_table` creates them. -/
def zeroed_sg : scatterlist :=
  { page := none, offset := 0, length := 0, dma_address := 0, dma_length := 0 }

/-! ## The invalidation callbacks -/

/-- The function `nv_get_p2p_free_callback` (lines 83-131), the Invalidation
Dispatcher. Returns the descriptor `data` points to and the new kernel state.
The upstream notification is recorded as one effect; the calls it may make
back into the client before it returns are made explicit in
`nv_get_p2p_free_callback_nested`. -/
def nv_get_p2p_free_callback (E : Env) (data : Option nv_mem_context) (k : Kernel) :
    Option nv_mem_context × Kernel :=
  let k := __module_get k
  match data with
  | none => (none, module_put (peer_err 92 k))
  | some nv_mem_context =>
    match nv_mem_context.page_table with
    | none => (some nv_mem_context, module_put (peer_err 97 k))
    | some page_table =>
      match nv_mem_context.dma_mapping with
      | none => (some nv_mem_context, module_put (peer_err 107 k))
      | some dma_mapping =>
        let nv_mem_context := { nv_mem_context with is_callback := 1 }
        let k := emit (Event.write_once_is_callback 1) k
        let k := emit (Event.mem_invalidate_callback E.reg_handle nv_mem_context.core_context) k
        let ret := E.nvidia_p2p_free_dma_mapping k.log dma_mapping
        let k := emit (Event.nvidia_p2p_free_dma_mapping dma_mapping) k
        let k := if ret ≠ 0 then peer_err 121 k else k
        let ret := E.nvidia_p2p_free_page_table k.log (some page_table)
        let k := emit (Event.nvidia_p2p_free_page_table (some page_table)) k
        let k := if ret ≠ 0 then peer_err 125 k else k
        (some nv_mem_context, module_put k)

/-- The function `nv_mem_dummy_callback` (lines 134-147). `data` is
dereferenced unchecked: the result is `none` when it is `NULL`. -/
def nv_mem_dummy_callback (E : Env) (data : Option nv_mem_context) (k : Kernel) :
    Option (nv_mem_context × Kernel) :=
  match data with
  | none => none
  | some nv_mem_context =>
    let k := __module_get k
    let ret := E.nvidia_p2p_free_page_table k.log nv_mem_context.page_table
    let k := emit (Event.nvidia_p2p_free_page_table nv_mem_context.page_table) k
    let k := if ret ≠ 0 then peer_err 143 k else k
    some (nv_mem_context, module_put k)

/-- Run the callback a pin was registered with. -/
def run_free_callback (E : Env) (cb : free_callback) (data : Option nv_mem_context)
    (k : Kernel) : Option (nv_mem_context × Kernel) :=
  match cb with
  | free_callback.nv_get_p2p_free_callback =>
    match nv_get_p2p_free_callback E data k with
    | (some c, k1) => some (c, k1)
    | (none, _) => none
  | free_callback.nv_mem_dummy_callback => nv_mem_dummy_callback E data k

/-! ## The client operations -/

/-- The function `nv_mem_acquire` (lines 150-192), Probe. `addr` and `size`
are 64-bit unsigned; the two unused pointer parameters are left out. Returns
the return value, the pointer stored in `*client_context` (`none`: nothing
stored) and the new kernel state. -/
def nv_mem_acquire (E : Env) (addr size : Nat) (k : Kernel) :
    Int × Option nv_mem_context × Kernel :=
  let allocated := E.kzalloc k.log
  let k := emit Event.kzalloc k
  if !allocated then (0, none, k)
  else
    let nv_mem_context := zeroed_context
    let nv_mem_context := { nv_mem_context with page_virt_start := addr &&& GPU_PAGE_MASK }
    let nv_mem_context := { nv_mem_context with
      page_virt_end := (addr + size + GPU_PAGE_SIZE - 1) % 2 ^ 64 &&& GPU_PAGE_MASK }
    let nv_mem_context := { nv_mem_context with
      mapped_size :=
        (nv_mem_context.page_virt_end + (2 ^ 64 - nv_mem_context.page_virt_start)) % 2 ^ 64 }
    let r := E.nvidia_p2p_get_pages k.log nv_mem_context.page_virt_start
      nv_mem_context.mapped_size free_callback.nv_mem_dummy_callback
    let k := emit (Event.nvidia_p2p_get_pages nv_mem_context.page_virt_start
      nv_mem_context.mapped_size free_callback.nv_mem_dummy_callback) k
    let nv_mem_context := { nv_mem_context with page_table := r.2 }
    if r.1 < 0 then (0, none, emit Event.kfree k)
    else
      let ret := E.nvidia_p2p_put_pages k.log nv_mem_context.page_virt_start
        nv_mem_context.page_table
      let k := emit (Event.nvidia_p2p_put_pages nv_mem_context.page_virt_start
        nv_mem_context.page_table) k
      if ret < 0 then (0, none, emit Event.kfree (peer_err 178 k))
      else (1, some nv_mem_context, __module_get k)

/-- The kernel call `sg_alloc_table(sg_head, nents, GFP_KERNEL)`: the status
is the allocator's answer; on status 0 the table holds `nents` zeroed
entries, otherwise it holds none. -/
def sg_alloc_table (E : Env) (nents : Nat) (k : Kernel) : Int × sg_table × Kernel :=
  let ret := E.sg_alloc_table k.log nents
  let k := emit (Event.sg_alloc_table nents) k
  if ret = 0 then (0, { sgl := List.replicate nents zeroed_sg }, k)
  else (ret, { sgl := [] }, k)

/-- The body of the `for_each_sg` loop of `nv_dma_map` (lines 241-243) on
entry `i`: `sg_set_page(sg, NULL, page_size, 0)`, then the two stores. The
two length fields are `unsigned int`. -/
def set_segment (page_size : Nat) (dma_addresses : List Nat) (i : Nat) (_sg : scatterlist) :
    scatterlist :=
  { page := none, offset := 0, length := page_size % 2 ^ 32,
    dma_address := dma_addresses.getD i 0, dma_length := page_size % 2 ^ 32 }

/-- The loop `for_each_sg(sg_head->sgl, sg, nr, i)` of `nv_dma_map`, started
at index `i` on the remaining entries. The counter `i` is an `int` compared
with the `unsigned long` bound `nr`: with the kernel's wrapping signed
arithmetic the body runs for the indices below `nr` and below `2 ^ 31`. -/
def for_each_sg (page_size : Nat) (dma_addresses : List Nat) (nr : Nat) :
    Nat → List scatterlist → List scatterlist
  | _, [] => []
  | i, sg :: rest =>
    if i < nr ∧ i < 2 ^ 31 then
      set_segment page_size dma_addresses i sg :: for_each_sg page_size dma_addresses nr (i + 1) rest
    else sg :: rest

/-- The result of `nv_dma_map`: the return value, the caller's table, the
descriptor, the value of `*nmap` and the kernel state. -/
structure dma_map_result where
  ret : Int
  sg_head : sg_table
  ctx : nv_mem_context
  nmap : Int
  k : Kernel
  deriving DecidableEq, Repr

/-- The function `nv_dma_map` (lines 194-249), Map. `pdev` is
`to_pci_dev(dma_device)`, `nmap` the value `*nmap` holds on entry. The
result is `none` when a `NULL` pointer is dereferenced: the context, its
page table, or the mapping the service stored with status 0. -/
def nv_dma_map (E : Env) (sg_head : sg_table) (context : Option nv_mem_context)
    (pdev : Option Nat) (_dmasync : Int) (nmap : Int) (k : Kernel) : Option dma_map_result :=
  match context with
  | none => none
  | some nv_mem_context =>
    match nv_mem_context.page_table with
    | none => none
    | some page_table =>
      if page_table.page_size ≠ E.NVIDIA_P2P_PAGE_SIZE_64KB then
        some ⟨-EINVAL, sg_head, nv_mem_context, nmap, peer_err 207 k⟩
      else
        match pdev with
        | none => some ⟨-EINVAL, sg_head, nv_mem_context, nmap, peer_err 213 k⟩
        | some dev =>
          let r := E.nvidia_p2p_dma_map_pages k.log dev page_table
          let k := emit (Event.nvidia_p2p_dma_map_pages dev page_table) k
          if r.1 ≠ 0 then some ⟨r.1, sg_head, nv_mem_context, nmap, peer_err 219 k⟩
          else
            match r.2 with
            | none => none
            | some dma_mapping =>
              if !E.NVIDIA_P2P_DMA_MAPPING_VERSION_COMPATIBLE dma_mapping then
                let k := peer_err 224 k
                let k := emit (Event.nvidia_p2p_dma_unmap_pages (some dev) (some page_table)
                  dma_mapping) k
                some ⟨-EINVAL, sg_head, nv_mem_context, nmap, k⟩
              else
                let nv_mem_context := { nv_mem_context with npages := dma_mapping.entries }
                let a := sg_alloc_table E dma_mapping.entries k
                if a.1 ≠ 0 then
                  let k := emit (Event.nvidia_p2p_dma_unmap_pages (some dev) (some page_table)
                    dma_mapping) a.2.2
                  some ⟨a.1, a.2.1, nv_mem_context, nmap, k⟩
                else
                  let nv_mem_context := { nv_mem_context with dma_mapping := some dma_mapping }
                  let nv_mem_context := { nv_mem_context with sg_allocated := 1 }
                  let sgl := for_each_sg nv_mem_context.page_size dma_mapping.dma_addresses
                    nv_mem_context.npages 0 a.2.1.sgl
                  some ⟨0, { a.2.1 with sgl := sgl }, nv_mem_context,
                    to_int nv_mem_context.npages, a.2.2⟩

/-- The function `nv_dma_unmap` (lines 251-272), Unmap. `pdev` is
`to_pci_dev(dma_device)`. Returns the return value, the descriptor
`context` points to and the kernel state. -/
def nv_dma_unmap (_E : Env) (_sg_head : sg_table) (context : Option nv_mem_context)
    (pdev : Option Nat) (k : Kernel) : Int × Option nv_mem_context × Kernel :=
  match context with
  | none => (-EINVAL, none, peer_err 259 k)
  | some nv_mem_context =>
    if nv_mem_context.is_callback ≠ 0 then (0, some nv_mem_context, k)
    else
      match nv_mem_context.dma_mapping with
      | some dma_mapping =>
        (0, some nv_mem_context,
          emit (Event.nvidia_p2p_dma_unmap_pages pdev nv_mem_context.page_table dma_mapping) k)
      | none => (0, some nv_mem_context, k)

/-- The function `nv_mem_put_pages` (lines 275-305), Unpin. The context is
dereferenced unchecked: the result is `none` when it is `NULL`. Returns the
caller's table, the descriptor and the kernel state. -/
def nv_mem_put_pages (_E : Env) (sg_head : sg_table) (context : Option nv_mem_context)
    (k : Kernel) : Option (sg_table × nv_mem_context × Kernel) :=
  match context with
  | none => none
  | some nv_mem_context =>
    let k :=
      if nv_mem_context.is_callback ≠ 0 then k
      else emit (Event.nvidia_p2p_put_pages nv_mem_context.page_virt_start
        nv_mem_context.page_table) k
    if nv_mem_context.sg_allocated ≠ 0 then
      some ({ sgl := [] }, { nv_mem_context with sg_allocated := 0 },
        emit Event.sg_free_table k)
    else some (sg_head, nv_mem_context, k)

/-- The function `nv_mem_release` (lines 307-315), Release: the descriptor
is freed and the module reference dropped. -/
def nv_mem_release (_context : Option nv_mem_context) (k : Kernel) : Kernel :=
  module_put (emit Event.kfree k)

/-- The function `nv_mem_get_pages` (lines 317-345), Pin. Returns the return
value, the descriptor `client_context` points to and the kernel state. -/
def nv_mem_get_pages (E : Env) (_addr _size : Nat) (_write _force : Int) (_sg_head : sg_table)
    (client_context : Option nv_mem_context) (core_context : Nat) (k : Kernel) :
    Int × Option nv_mem_context × Kernel :=
  match client_context with
  | none => (-EINVAL, none, k)
  | some nv_mem_context =>
    let nv_mem_context := { nv_mem_context with core_context := core_context }
    let nv_mem_context := { nv_mem_context with page_size := GPU_PAGE_SIZE }
    let r := E.nvidia_p2p_get_pages k.log nv_mem_context.page_virt_start
      nv_mem_context.mapped_size free_callback.nv_get_p2p_free_callback
    let k := emit (Event.nvidia_p2p_get_pages nv_mem_context.page_virt_start
      nv_mem_context.mapped_size free_callback.nv_get_p2p_free_callback) k
    let nv_mem_context := { nv_mem_context with page_table := r.2 }
    if r.1 < 0 then (r.1, some nv_mem_context, peer_err 336 k)
    else (0, some nv_mem_context, k)

/-- The function `nv_mem_get_page_size` (lines 348-354). -/
def nv_mem_get_page_size (context : Option nv_mem_context) : Option Nat :=
  context.map fun nv_mem_context => nv_mem_context.page_size

/-! ## Sequences of calls on one descriptor -/

/-- One descriptor with the caller's table and the kernel state around it. -/
structure World where
  ctx : nv_mem_context
  sg_head : sg_table
  k : Kernel
  deriving DecidableEq, Repr

/-- The three teardown actors: the Invalidation Dispatcher, Unmap and Unpin. -/
inductive Op where
  | dispatcher
  | unmap
  | unpin
  deriving DecidableEq, Repr

/-- One actor run to completion on the descriptor of the world. -/
def run_op (E : Env) (pdev : Option Nat) (op : Op) (w : World) : Option World :=
  match op with
  | Op.dispatcher =>
    let r := nv_get_p2p_free_callback E (some w.ctx) w.k
    r.1.map fun c => { w with ctx := c, k := r.2 }
  | Op.unmap =>
    let r := nv_dma_unmap E w.sg_head (some w.ctx) pdev w.k
    r.2.1.map fun c => { w with ctx := c, k := r.2.2 }
  | Op.unpin =>
    match nv_mem_put_pages E w.sg_head (some w.ctx) w.k with
    | some (sg, c, k) => some { ctx := c, sg_head := sg, k := k }
    | none => none

/-- The actors of a list run one after the other, each to completion. -/
def run_ops (E : Env) (pdev : Option Nat) : List Op → World → Option World
  | [], w => some w
  | op :: rest, w => (run_op E pdev op w).bind (run_ops E pdev rest)

/-- The descriptor an actor leaves behind, as a function of the descriptor it
found (proved to be what `run_op` computes in `run_op_spec`). -/
def op_ctx (op : Op) (c : nv_mem_context) : nv_mem_context :=
  match op with
  | Op.dispatcher =>
    match c.page_table, c.dma_mapping with
    | some _, some _ => { c with is_callback := 1 }
    | _, _ => c
  | Op.unmap => c
  | Op.unpin => if c.sg_allocated ≠ 0 then { c with sg_allocated := 0 } else c

/-- The effects an actor appends to the history, as a function of the
descriptor it found (proved to be what `run_op` appends in `run_op_spec`). -/
def op_events (E : Env) (pdev : Option Nat) (op : Op) (c : nv_mem_context) : List Event :=
  match op with
  | Op.dispatcher =>
    match c.page_table, c.dma_mapping with
    | some pt, some dm =>
      [Event.write_once_is_callback 1, Event.mem_invalidate_callback E.reg_handle c.core_context,
        Event.nvidia_p2p_free_dma_mapping dm, Event.nvidia_p2p_free_page_table (some pt)]
    | _, _ => []
  | Op.unmap =>
    if c.is_callback ≠ 0 then []
    else
      match c.dma_mapping with
      | some dm => [Event.nvidia_p2p_dma_unmap_pages pdev c.page_table dm]
      | none => []
  | Op.unpin =>
    (if c.is_callback ≠ 0 then [] else [Event.nvidia_p2p_put_pages c.page_virt_start c.page_table])
      ++ (if c.sg_allocated ≠ 0 then [Event.sg_free_table] else [])

/-- The effects a list of actors appends, run one after the other. -/
def ops_events (E : Env) (pdev : Option Nat) : List Op → nv_mem_context → List Event
  | [], _ => []
  | op :: rest, c => op_events E pdev op c ++ ops_events E pdev rest (op_ctx op c)

/-- The caller's table an actor leaves behind (proved in `run_op_spec`). -/
def op_sg (op : Op) (c : nv_mem_context) (sg : sg_table) : sg_table :=
  match op with
  | Op.unpin => if c.sg_allocated ≠ 0 then { sgl := [] } else sg
  | _ => sg

/-- The caller's table a list of actors leaves behind. -/
def ops_sg : List Op → nv_mem_context → sg_table → sg_table
  | [], _, sg => sg
  | op :: rest, c, sg => ops_sg rest (op_ctx op c) (op_sg op c sg)

/-- The descriptor a list of actors leaves behind. -/
def ops_ctx : List Op → nv_mem_context → nv_mem_context
  | [], c => c
  | op :: rest, c => ops_ctx rest (op_ctx op c)

/-- The effects that happened after kernel state `k0`, up to `k1`. -/
def events_since (k0 k1 : Kernel) : List Event :=
  k1.log.drop k0.log.length

/-- Whether an effect releases the DMA mapping handle `dm`: the explicit
`nvidia_p2p_dma_unmap_pages` or the dispatcher's `nvidia_p2p_free_dma_mapping`. -/
def is_dma_release (dm : nvidia_p2p_dma_mapping) : Event → Bool
  | Event.nvidia_p2p_dma_unmap_pages _ _ d => decide (d = dm)
  | Event.nvidia_p2p_free_dma_mapping d => decide (d = dm)
  | _ => false

/-- Whether an effect releases the page-table handle `pt`: the explicit
`nvidia_p2p_put_pages` or a callback's `nvidia_p2p_free_page_table`. -/
def is_page_table_release (pt : nvidia_p2p_page_table) : Event → Bool
  | Event.nvidia_p2p_put_pages _ p => decide (p = some pt)
  | Event.nvidia_p2p_free_page_table p => decide (p = some pt)
  | _ => false

/-- Whether an effect is a call into the Pinning Service or the DMA Mapping
Service. -/
def is_service_call : Event → Bool
  | Event.nvidia_p2p_get_pages _ _ _ => true
  | Event.nvidia_p2p_put_pages _ _ => true
  | Event.nvidia_p2p_free_page_table _ => true
  | Event.nvidia_p2p_dma_map_pages _ _ => true
  | Event.nvidia_p2p_dma_unmap_pages _ _ _ => true
  | Event.nvidia_p2p_free_dma_mapping _ => true
  | _ => false

/-- Whether an effect is the upstream invalidation notification. -/
def is_notification : Event → Bool
  | Event.mem_invalidate_callback _ _ => true
  | _ => false

/-- The callback an effect hands to the Pinning Service, if it is a pin. -/
def callback_of : Event → Option free_callback
  | Event.nvidia_p2p_get_pages _ _ cb => some cb
  | _ => none

/-- The callback handed to the Pinning Service by the latest pin in a history. -/
def registered_callback (log : List Event) : Option free_callback :=
  log.reverse.findSome? callback_of

/-- Whether an effect frees a scatter-gather table. -/
def is_sg_free : Event → Bool
  | Event.sg_free_table => true
  | _ => false

/-- Whether an effect is a pin, a call of `nvidia_p2p_get_pages`. -/
def is_pin_call : Event → Bool
  | Event.nvidia_p2p_get_pages _ _ _ => true
  | _ => false

/-- Whether an effect is an unpin, a call of `nvidia_p2p_put_pages`. -/
def is_unpin_call : Event → Bool
  | Event.nvidia_p2p_put_pages _ _ => true
  | _ => false

/-- Unmap followed by Unpin, the explicit teardown pass. -/
def unmap_then_unpin (E : Env) (pdev : Option Nat) (w : World) : Option World :=
  run_ops E pdev [Op.unmap, Op.unpin] w

/-! ## The upstream notification calling back into the client -/

/-- A call the upstream framework makes on the descriptor, through the client's
function table, while its invalidation notification runs (the comment at
lines 101-103 provides for `nv_mem_release` being called there). -/
inductive upstream_call where
  | dma_unmap (pdev : Option Nat)
  | put_pages
  | release
  deriving DecidableEq, Repr

/-- One call of the upstream framework back into the client: `nv_dma_unmap`,
`nv_mem_put_pages` or `nv_mem_release` on the descriptor of the world. After
`nv_mem_release` the descriptor's memory is freed; the world keeps its last
contents, which the dispatcher does not read again. -/
def run_upstream_call (E : Env) (call : upstream_call) (w : World) : Option World :=
  match call with
  | upstream_call.dma_unmap pdev => run_op E pdev Op.unmap w
  | upstream_call.put_pages => run_op E none Op.unpin w
  | upstream_call.release => some { w with k := nv_mem_release (some w.ctx) w.k }

/-- The calls of the upstream framework back into the client, in order. -/
def run_upstream (E : Env) : List upstream_call → World → Option World
  | [], w => some w
  | call :: rest, w => (run_upstream_call E call w).bind (run_upstream E rest)

/-- The function `nv_get_p2p_free_callback` (lines 83-131) on a non-null
descriptor, with the work of the upstream notification made explicit:
`nested` lists the calls `(*mem_invalidate_callback)` makes back into the
client on this descriptor before it returns. After the notification the
function reads only its locals `dma_mapping` and `page_table`, captured
before. With no nested call this is `nv_get_p2p_free_callback` (lemma
`free_callback_nested_nil`). -/
def nv_get_p2p_free_callback_nested (E : Env) (nested : List upstream_call) (w : World) :
    Option World :=
  let k := __module_get w.k
  match w.ctx.page_table with
  | none => some { w with k := module_put (peer_err 97 k) }
  | some page_table =>
    match w.ctx.dma_mapping with
    | none => some { w with k := module_put (peer_err 107 k) }
    | some dma_mapping =>
      let nv_mem_context := { w.ctx with is_callback := 1 }
      let k := emit (Event.write_once_is_callback 1) k
      let k := emit (Event.mem_invalidate_callback E.reg_handle nv_mem_context.core_context) k
      match run_upstream E nested { ctx := nv_mem_context, sg_head := w.sg_head, k := k } with
      | none => none
      | some w1 =>
        let k := w1.k
        let ret := E.nvidia_p2p_free_dma_mapping k.log dma_mapping
        let k := emit (Event.nvidia_p2p_free_dma_mapping dma_mapping) k
        let k := if ret ≠ 0 then peer_err 121 k else k
        let ret := E.nvidia_p2p_free_page_table k.log (some page_table)
        let k := emit (Event.nvidia_p2p_free_page_table (some page_table)) k
        let k := if ret ≠ 0 then peer_err 125 k else k
        some { w1 with k := module_put k }

/-! ## Sample environments -/

/-- A sample page table with 64 KiB pages (enumerator value 1). -/
def sample_page_table : nvidia_p2p_page_table :=
  { addr := 4096, page_size := 1 }

/-- A sample DMA mapping with two entries. -/
def sample_dma_mapping : nvidia_p2p_dma_mapping :=
  { addr := 8192, version := 131075, entries := 2, dma_addresses := [16777216, 16842752] }

/-- A sample environment in which every service call succeeds. -/
def sample_env : Env :=
  { NVIDIA_P2P_PAGE_SIZE_64KB := 1
    NVIDIA_P2P_DMA_MAPPING_VERSION_COMPATIBLE := fun m => decide (m.version = 131075)
    reg_handle := 77
    kzalloc := fun _ => true
    nvidia_p2p_get_pages := fun _ _ _ _ => (0, some sample_page_table)
    nvidia_p2p_put_pages := fun _ _ _ => 0
    nvidia_p2p_free_page_table := fun _ _ => 0
    nvidia_p2p_dma_map_pages := fun _ _ _ => (0, some sample_dma_mapping)
    nvidia_p2p_dma_unmap_pages := fun _ _ _ _ => 0
    nvidia_p2p_free_dma_mapping := fun _ _ => 0
    sg_alloc_table := fun _ _ => 0 }

/-- The kernel state the samples start from. -/
def sample_kernel : Kernel :=
  { log := [], dmesg := [], refcnt := 0 }

/-- The descriptor Probe hands back in the sample environment for the range
of address `0x10000` and size `0x8000`. -/
def sample_probed : nv_mem_context :=
  { zeroed_context with
    page_table := some sample_page_table, page_virt_start := 65536, page_virt_end := 131072,
    mapped_size := 65536 }

/-- The sample descriptor after Pin. -/
def sample_pinned : nv_mem_context :=
  { sample_probed with core_context := 5, page_size := 65536 }

/-- The sample descriptor after Pin and Map. -/
def sample_mapped : nv_mem_context :=
  { sample_pinned with dma_mapping := some sample_dma_mapping, npages := 2, sg_allocated := 1 }

/-- The table Map builds for the sample descriptor. -/
def sample_table : sg_table :=
  { sgl := [{ page := none, offset := 0, length := 65536, dma_address := 16777216,
              dma_length := 65536 },
            { page := none, offset := 0, length := 65536, dma_address := 16842752,
              dma_length := 65536 }] }

/-- The kernel state after Probe in the sample environment. -/
def sample_kernel_probed : Kernel :=
  (nv_mem_acquire sample_env 65536 32768 sample_kernel).2.2

/-- The kernel state after Probe and Pin in the sample environment. -/
def sample_kernel_pinned : Kernel :=
  (nv_mem_get_pages sample_env 65536 32768 1 0 { sgl := [] } (some sample_probed) 5
    sample_kernel_probed).2.2

/-- The kernel state after Probe, Pin and Map in the sample environment. -/
def sample_kernel_mapped : Kernel :=
  emit (Event.sg_alloc_table 2)
    (emit (Event.nvidia_p2p_dma_map_pages 3 sample_page_table) sample_kernel_pinned)

/-- The result of Map in the sample environment. -/
def sample_map_result : dma_map_result :=
  { ret := 0, sg_head := sample_table, ctx := sample_mapped, nmap := 2, k := sample_kernel_mapped }

/-- The sample environment with a DMA Mapping Service whose mappings fail the
version test. -/
def sample_env_bad_version : Env :=
  { sample_env with NVIDIA_P2P_DMA_MAPPING_VERSION_COMPATIBLE := fun _ => false }

/-- A DMA mapping with `2 ^ 31` entries, one device address per entry. -/
def huge_dma_mapping : nvidia_p2p_dma_mapping :=
  { addr := 8192, version := 131075, entries := 2147483648,
    dma_addresses := (List.range 2147483648).map fun i => 16777216 + 65536 * i }

/-- The sample environment with a DMA Mapping Service that returns the
mapping of `2 ^ 31` entries. -/
def sample_env_huge : Env :=
  { sample_env with nvidia_p2p_dma_map_pages := fun _ _ _ => (0, some huge_dma_mapping) }

/-- A page table with 4 KiB pages (enumerator value 0). -/
def small_page_table : nvidia_p2p_page_table :=
  { addr := 4096, page_size := 0 }

/-- The sample environment with a DMA Mapping Service that fails with `-EIO`. -/
def sample_env_map_fails : Env :=
  { sample_env with nvidia_p2p_dma_map_pages := fun _ _ _ => (-5, none) }

/-- The kernel state after Probe, Pin, Map and Unmap in the sample environment. -/
def sample_kernel_unmapped : Kernel :=
  (nv_dma_unmap sample_env sample_table (some sample_mapped) (some 3) sample_kernel_mapped).2.2

/-- The sample descriptor after Unpin. -/
def sample_unpinned : nv_mem_context :=
  { sample_mapped with sg_allocated := 0 }

/-- The kernel state after Probe, Pin, Map, Unmap and Unpin in the sample environment. -/
def sample_kernel_unpinned : Kernel :=
  emit Event.sg_free_table
    (emit (Event.nvidia_p2p_put_pages 65536 (some sample_page_table)) sample_kernel_unmapped)

/-! ## Shared lemmas -/

/-- The effects since `k` of a kernel whose history extends that of `k`. -/
theorem events_since_append (k k1 : Kernel) (l : List Event) (h : k1.log = k.log ++ l) :
    events_since k k1 = l := by
  simp [events_since, h]

/-- A descriptor Probe hands back is zeroed apart from its range and page table. -/
theorem acquire_owned_fields (E : Env) (addr size : Nat) (k k1 : Kernel) (c : nv_mem_context)
    (h : nv_mem_acquire E addr size k = (1, some c, k1)) :
    c.dma_mapping = none ∧ c.is_callback = 0 ∧ c.sg_allocated = 0 ∧ c.npages = 0 := by
  unfold nv_mem_acquire at h
  simp only [] at h
  split_ifs at h <;> simp at h
  obtain ⟨rfl, _⟩ := h
  simp [zeroed_context]

/-- Pin writes `core_context`, `page_size` and `page_table` and nothing else. -/
theorem get_pages_fields (E : Env) (addr size : Nat) (write force : Int) (sg : sg_table)
    (c0 c1 : nv_mem_context) (core : Nat) (k k1 : Kernel) (r : Int)
    (h : nv_mem_get_pages E addr size write force sg (some c0) core k = (r, some c1, k1)) :
    c1.dma_mapping = c0.dma_mapping ∧ c1.is_callback = c0.is_callback ∧
      c1.sg_allocated = c0.sg_allocated ∧ c1.page_size = GPU_PAGE_SIZE ∧
      c1.core_context = core := by
  unfold nv_mem_get_pages at h
  simp only [] at h
  split_ifs at h <;> simp at h <;> obtain ⟨_, rfl, _⟩ := h <;> simp

/-- A successful Map leaves both handles present and sets `sg_allocated`. -/
theorem dma_map_success_fields (E : Env) (sg : sg_table) (c : nv_mem_context)
    (pdev : Option Nat) (dmasync nmap : Int) (k : Kernel) (m : dma_map_result)
    (h : nv_dma_map E sg (some c) pdev dmasync nmap k = some m) (hret : m.ret = 0) :
    ∃ pt dm, c.page_table = some pt ∧ m.ctx.page_table = some pt ∧
      m.ctx.dma_mapping = some dm ∧ m.ctx.is_callback = c.is_callback ∧
      m.ctx.sg_allocated = 1 ∧ m.ctx.page_size = c.page_size ∧ m.ctx.npages = dm.entries := by
  unfold nv_dma_map at h
  simp only [] at h
  split at h
  · simp at h
  · rename_i pt hpt
    split_ifs at h with h1
    · simp at h; subst h; simp [EINVAL] at hret
    · split at h
      · simp at h; subst h; simp [EINVAL] at hret
      · split_ifs at h with h2
        · simp at h; subst h; exact absurd hret h2
        · split at h
          · simp at h
          · rename_i dm hdm
            split_ifs at h with h3 h4
            · simp at h; subst h; simp [EINVAL] at hret
            · simp at h; subst h; exact absurd hret h4
            · simp at h; subst h
              exact ⟨pt, dm, hpt, by simp [hpt], by simp, by simp, by simp, by simp, by simp⟩

@[simp] theorem emit_log (e : Event) (k : Kernel) : (emit e k).log = k.log ++ [e] := rfl

@[simp] theorem emit_refcnt (e : Event) (k : Kernel) : (emit e k).refcnt = k.refcnt := rfl

@[simp] theorem emit_dmesg (e : Event) (k : Kernel) : (emit e k).dmesg = k.dmesg := rfl

@[simp] theorem peer_err_log (l : Nat) (k : Kernel) : (peer_err l k).log = k.log := rfl

@[simp] theorem peer_err_refcnt (l : Nat) (k : Kernel) : (peer_err l k).refcnt = k.refcnt := rfl

@[simp] theorem peer_err_dmesg (l : Nat) (k : Kernel) :
    (peer_err l k).dmesg = k.dmesg ++ [l] := rfl

@[simp] theorem module_get_log (k : Kernel) : (__module_get k).log = k.log := rfl

@[simp] theorem module_get_refcnt (k : Kernel) : (__module_get k).refcnt = k.refcnt + 1 := rfl

@[simp] theorem module_put_log (k : Kernel) : (module_put k).log = k.log := rfl

@[simp] theorem module_put_refcnt (k : Kernel) : (module_put k).refcnt = k.refcnt - 1 := rfl

@[simp] theorem ite_peer_err_log (c : Prop) [Decidable c] (l : Nat) (k : Kernel) :
    (if c then peer_err l k else k).log = k.log := by
  split_ifs <;> rfl

@[simp] theorem ite_peer_err_refcnt (c : Prop) [Decidable c] (l : Nat) (k : Kernel) :
    (if c then peer_err l k else k).refcnt = k.refcnt := by
  split_ifs <;> rfl

@[simp] theorem ite_else_peer_err_log (c : Prop) [Decidable c] (l : Nat) (k : Kernel) :
    (if c then k else peer_err l k).log = k.log := by
  split_ifs <;> rfl

@[simp] theorem ite_else_peer_err_refcnt (c : Prop) [Decidable c] (l : Nat) (k : Kernel) :
    (if c then k else peer_err l k).refcnt = k.refcnt := by
  split_ifs <;> rfl

/-- The Invalidation Dispatcher on a non-null descriptor: the descriptor it
leaves, the effects it appends, and the reference count. -/
theorem dispatcher_spec (E : Env) (c : nv_mem_context) (k : Kernel) :
    (nv_get_p2p_free_callback E (some c) k).1 = some (op_ctx Op.dispatcher c) ∧
    (nv_get_p2p_free_callback E (some c) k).2.log = k.log ++ op_events E none Op.dispatcher c ∧
    (nv_get_p2p_free_callback E (some c) k).2.refcnt = k.refcnt := by
  unfold nv_get_p2p_free_callback op_ctx op_events
  cases hpt : c.page_table <;> cases hdm : c.dma_mapping <;> simp [hpt, hdm]

/-- Unmap on a non-null descriptor: return value 0, the descriptor untouched,
the effects appended, and the reference count. -/
theorem unmap_spec (E : Env) (sg : sg_table) (c : nv_mem_context) (pdev : Option Nat)
    (k : Kernel) :
    (nv_dma_unmap E sg (some c) pdev k).1 = 0 ∧
    (nv_dma_unmap E sg (some c) pdev k).2.1 = some c ∧
    (nv_dma_unmap E sg (some c) pdev k).2.2.log = k.log ++ op_events E pdev Op.unmap c ∧
    (nv_dma_unmap E sg (some c) pdev k).2.2.refcnt = k.refcnt := by
  unfold nv_dma_unmap op_events
  by_cases hcb : c.is_callback = 0 <;> cases hdm : c.dma_mapping <;> simp [hcb, hdm]

/-- Unpin on a non-null descriptor: it returns, with the descriptor it leaves,
the effects appended, the reference count, and the caller's table. -/
theorem unpin_spec (E : Env) (sg : sg_table) (c : nv_mem_context) (k : Kernel) :
    ∃ sg1 k1, nv_mem_put_pages E sg (some c) k = some (sg1, op_ctx Op.unpin c, k1) ∧
      k1.log = k.log ++ op_events E none Op.unpin c ∧ k1.refcnt = k.refcnt ∧
      sg1 = (if c.sg_allocated ≠ 0 then { sgl := [] } else sg) := by
  unfold nv_mem_put_pages op_ctx op_events
  by_cases hcb : c.is_callback = 0 <;> by_cases hsg : c.sg_allocated = 0 <;>
    simp only [hcb, hsg, ne_eq, not_true_eq_false, not_false_eq_true, if_true, if_false] <;>
    refine ⟨_, _, rfl, ?_, ?_, rfl⟩ <;> simp

/-- The events of the dispatcher and of Unpin do not depend on the device. -/
theorem op_events_pdev (E : Env) (pdev : Option Nat) (c : nv_mem_context) :
    op_events E pdev Op.dispatcher c = op_events E none Op.dispatcher c ∧
    op_events E pdev Op.unpin c = op_events E none Op.unpin c := by
  constructor <;> rfl

/-- One actor on a world: it runs to completion, and leaves the descriptor,
history and reference count that `op_ctx` and `op_events` describe. -/
theorem run_op_spec (E : Env) (pdev : Option Nat) (op : Op) (w : World) :
    ∃ w1, run_op E pdev op w = some w1 ∧ w1.ctx = op_ctx op w.ctx ∧
      w1.k.log = w.k.log ++ op_events E pdev op w.ctx ∧ w1.k.refcnt = w.k.refcnt ∧
      w1.sg_head = op_sg op w.ctx w.sg_head := by
  cases op
  · obtain ⟨h1, h2, h3⟩ := dispatcher_spec E w.ctx w.k
    refine ⟨{ ctx := op_ctx Op.dispatcher w.ctx, sg_head := w.sg_head,
              k := (nv_get_p2p_free_callback E (some w.ctx) w.k).2 }, ?_, rfl, ?_, h3, rfl⟩
    · simp [run_op, h1]
    · rw [(op_events_pdev E pdev w.ctx).1]; exact h2
  · obtain ⟨_, h1, h2, h3⟩ := unmap_spec E w.sg_head w.ctx pdev w.k
    refine ⟨{ ctx := w.ctx, sg_head := w.sg_head,
              k := (nv_dma_unmap E w.sg_head (some w.ctx) pdev w.k).2.2 }, ?_, rfl, h2, h3, rfl⟩
    simp [run_op, h1]
  · obtain ⟨sg1, k1, h1, h2, h3, h4⟩ := unpin_spec E w.sg_head w.ctx w.k
    refine ⟨{ ctx := op_ctx Op.unpin w.ctx, sg_head := sg1, k := k1 }, ?_, rfl, ?_, h3, h4⟩
    · simp [run_op, h1]
    · rw [(op_events_pdev E pdev w.ctx).2]; exact h2

/-- A list of actors on a world: every one runs to completion, and together
they leave the descriptor, history and reference count that `ops_ctx` and
`ops_events` describe. -/
theorem run_ops_spec (E : Env) (pdev : Option Nat) (ops : List Op) (w : World) :
    ∃ w1, run_ops E pdev ops w = some w1 ∧ w1.ctx = ops_ctx ops w.ctx ∧
      w1.k.log = w.k.log ++ ops_events E pdev ops w.ctx ∧ w1.k.refcnt = w.k.refcnt ∧
      w1.sg_head = ops_sg ops w.ctx w.sg_head := by
  induction ops generalizing w with
  | nil => exact ⟨w, rfl, rfl, by simp [ops_events], rfl, rfl⟩
  | cons op rest ih =>
    obtain ⟨w1, h1, hc1, hl1, hr1, hs1⟩ := run_op_spec E pdev op w
    obtain ⟨w2, h2, hc2, hl2, hr2, hs2⟩ := ih w1
    refine ⟨w2, ?_, ?_, ?_, ?_, ?_⟩
    · simp [run_ops, h1, h2]
    · rw [hc2, hc1]; rfl
    · rw [hl2, hl1, hc1]; simp [ops_events]
    · rw [hr2, hr1]
    · rw [hs2, hs1, hc1]; rfl

/-- The six orders of the three teardown actors. -/
theorem orders_of_three (order : List Op)
    (h : order.Perm [Op.dispatcher, Op.unmap, Op.unpin]) :
    order = [Op.dispatcher, Op.unmap, Op.unpin] ∨ order = [Op.dispatcher, Op.unpin, Op.unmap] ∨
    order = [Op.unmap, Op.dispatcher, Op.unpin] ∨ order = [Op.unmap, Op.unpin, Op.dispatcher] ∨
    order = [Op.unpin, Op.dispatcher, Op.unmap] ∨ order = [Op.unpin, Op.unmap, Op.dispatcher] := by
  have hl := h.length_eq
  match order, hl, h with
  | [a, b, c], _, h =>
    cases a <;> cases b <;> cases c <;> first
      | (exact absurd h (by decide))
      | simp

/-! ## C1: releases of the two handles over the orders of teardown -/

/-- C1 (as amended). For a descriptor that Probe handed back and that was then
pinned and mapped successfully, and for every order in which the Invalidation
Dispatcher, Unmap and Unpin each run once to completion: the run completes;
the DMA mapping handle receives exactly one release call when the dispatcher
runs before Unmap and two (one from Unmap, one from the dispatcher) when Unmap
runs first; the page-table handle receives exactly one release call when the
dispatcher runs before Unpin and two when Unpin runs first. -/
theorem C1_releases_by_order (E : Env) (addr size core : Nat)
    (write force dmasync nmap : Int) (sg0 : sg_table) (pdev pdev1 : Option Nat)
    (k0 k1 k2 : Kernel) (c0 c1 : nv_mem_context) (m : dma_map_result) (order : List Op)
    (hacq : nv_mem_acquire E addr size k0 = (1, some c0, k1))
    (hpin : nv_mem_get_pages E addr size write force sg0 (some c0) core k1 = (0, some c1, k2))
    (hmap : nv_dma_map E sg0 (some c1) pdev dmasync nmap k2 = some m) (hret : m.ret = 0)
    (horder : order.Perm [Op.dispatcher, Op.unmap, Op.unpin]) :
    ∃ dm pt w, m.ctx.dma_mapping = some dm ∧ m.ctx.page_table = some pt ∧
      run_ops E pdev1 order { ctx := m.ctx, sg_head := m.sg_head, k := m.k } = some w ∧
      (events_since m.k w.k).countP (is_dma_release dm) =
        (if order.indexOf Op.dispatcher < order.indexOf Op.unmap then 1 else 2) ∧
      (events_since m.k w.k).countP (is_page_table_release pt) =
        (if order.indexOf Op.dispatcher < order.indexOf Op.unpin then 1 else 2) := by
  obtain ⟨_, hcb0, _, _⟩ := acquire_owned_fields E addr size k0 k1 c0 hacq
  obtain ⟨_, hcb1, _, _, _⟩ := get_pages_fields E addr size write force sg0 c0 c1 core k1 k2 0 hpin
  obtain ⟨pt, dm, _, hpt, hdm, hcb, hsg, _, _⟩ :=
    dma_map_success_fields E sg0 c1 pdev dmasync nmap k2 m hmap hret
  have hflag : m.ctx.is_callback = 0 := by rw [hcb, hcb1, hcb0]
  obtain ⟨w, hw, _, hlog, _, _⟩ :=
    run_ops_spec E pdev1 order { ctx := m.ctx, sg_head := m.sg_head, k := m.k }
  refine ⟨dm, pt, w, hdm, hpt, hw, ?_⟩
  rw [events_since_append m.k w.k _ hlog]
  rcases orders_of_three order horder with h | h | h | h | h | h <;> subst h <;>
    simp [ops_events, op_events, op_ctx, hpt, hdm, hflag, hsg, is_dma_release,
      is_page_table_release, List.countP_cons, List.indexOf_cons]

/-- C1 witness: the sample lifecycle, torn down in the order Unmap, Dispatcher, Unpin. -/
theorem C1_releases_by_order_witness :
    ∃ dm pt w, sample_map_result.ctx.dma_mapping = some dm ∧
      sample_map_result.ctx.page_table = some pt ∧
      run_ops sample_env (some 3) [Op.unmap, Op.dispatcher, Op.unpin]
        { ctx := sample_map_result.ctx, sg_head := sample_map_result.sg_head,
          k := sample_map_result.k } = some w ∧
      (events_since sample_map_result.k w.k).countP (is_dma_release dm) =
        (if [Op.unmap, Op.dispatcher, Op.unpin].indexOf Op.dispatcher <
            [Op.unmap, Op.dispatcher, Op.unpin].indexOf Op.unmap then 1 else 2) ∧
      (events_since sample_map_result.k w.k).countP (is_page_table_release pt) =
        (if [Op.unmap, Op.dispatcher, Op.unpin].indexOf Op.dispatcher <
            [Op.unmap, Op.dispatcher, Op.unpin].indexOf Op.unpin then 1 else 2) :=
  C1_releases_by_order sample_env 65536 32768 5 1 0 0 0 { sgl := [] } (some 3) (some 3)
    sample_kernel sample_kernel_probed sample_kernel_pinned sample_probed sample_pinned
    sample_map_result [Op.unmap, Op.dispatcher, Op.unpin]
    (by decide) (by decide) (by decide) (by decide) (by decide)

/-- C1 counterexample: the sample descriptor, probed, pinned and mapped
successfully, then torn down in the order Unmap, Unpin, Dispatcher: the DMA
mapping handle is released twice and the page-table handle is released twice. -/
theorem C1_counterexample :
    nv_mem_acquire sample_env 65536 32768 sample_kernel =
        (1, some sample_probed, sample_kernel_probed) ∧
      nv_mem_get_pages sample_env 65536 32768 1 0 { sgl := [] } (some sample_probed) 5
        sample_kernel_probed = (0, some sample_pinned, sample_kernel_pinned) ∧
      nv_dma_map sample_env { sgl := [] } (some sample_pinned) (some 3) 0 0 sample_kernel_pinned =
        some sample_map_result ∧
      ∃ w, run_ops sample_env (some 3) [Op.unmap, Op.unpin, Op.dispatcher]
          { ctx := sample_mapped, sg_head := sample_table, k := sample_kernel_mapped } = some w ∧
        (events_since sample_kernel_mapped w.k).countP (is_dma_release sample_dma_mapping) = 2 ∧
        (events_since sample_kernel_mapped w.k).countP
          (is_page_table_release sample_page_table) = 2 := by
  refine ⟨by decide, by decide, by decide, ?_⟩
  refine ⟨_, rfl, ?_, ?_⟩ <;> decide

/-! ## C2: teardown of an invalidated descriptor -/

/-- C2. For every non-null descriptor whose flag `is_callback` is set, Unmap
returns 0 and adds nothing to the history (so it issues no DMA-unmap call), and
Unpin returns after adding no call into the Pinning or DMA Mapping Service, in
particular no `nvidia_p2p_put_pages`. -/
theorem C2_invalidated_teardown_skips_release (E : Env) (sg : sg_table) (c : nv_mem_context)
    (pdev : Option Nat) (k : Kernel) (h : c.is_callback ≠ 0) :
    nv_dma_unmap E sg (some c) pdev k = (0, some c, k) ∧
    ∃ sg1 c1 k1, nv_mem_put_pages E sg (some c) k = some (sg1, c1, k1) ∧
      (∀ e ∈ events_since k k1, is_service_call e = false) ∧
      (∀ va p, Event.nvidia_p2p_put_pages va p ∉ events_since k k1) := by
  constructor
  · simp [nv_dma_unmap, h]
  · obtain ⟨sg1, k1, h1, h2, _, _⟩ := unpin_spec E sg c k
    refine ⟨sg1, _, k1, h1, ?_, ?_⟩ <;> rw [events_since_append k k1 _ h2]
    · intro e he
      by_cases hsg : c.sg_allocated = 0 <;> simp [op_events, h, hsg] at he
      subst he; rfl
    · intro va p he
      by_cases hsg : c.sg_allocated = 0 <;> simp [op_events, h, hsg] at he

/-- C2 witness: the sample descriptor after the dispatcher has set its flag. -/
theorem C2_invalidated_teardown_skips_release_witness :
    nv_dma_unmap sample_env sample_table (some { sample_mapped with is_callback := 1 }) (some 3)
        sample_kernel_mapped = (0, some { sample_mapped with is_callback := 1 },
        sample_kernel_mapped) ∧
    ∃ sg1 c1 k1, nv_mem_put_pages sample_env sample_table
        (some { sample_mapped with is_callback := 1 }) sample_kernel_mapped =
          some (sg1, c1, k1) ∧
      (∀ e ∈ events_since sample_kernel_mapped k1, is_service_call e = false) ∧
      (∀ va p, Event.nvidia_p2p_put_pages va p ∉ events_since sample_kernel_mapped k1) :=
  C2_invalidated_teardown_skips_release sample_env sample_table
    { sample_mapped with is_callback := 1 } (some 3) sample_kernel_mapped (by decide)

/-! ## C3: a second explicit teardown pass -/

/-- C3 (as amended). For every descriptor, both teardown passes run to
completion, and a second Unmap-then-Unpin pass immediately after a first one
frees no scatter-gather table and leaves the descriptor and the caller's table
unchanged. With the invalidated flag set the second pass makes no call at all.
With the flag clear the second pass repeats the release calls:
`nvidia_p2p_dma_unmap_pages` when a DMA mapping handle is present, then
`nvidia_p2p_put_pages`. Unmap and Unpin never clear the DMA mapping handle: it
is the same after the first pass as before it. -/
theorem C3_second_pass (E : Env) (pdev : Option Nat) (w : World) :
    ∃ w1 w2, unmap_then_unpin E pdev w = some w1 ∧ unmap_then_unpin E pdev w1 = some w2 ∧
      w2.ctx = w1.ctx ∧ w2.sg_head = w1.sg_head ∧
      w1.ctx.dma_mapping = w.ctx.dma_mapping ∧
      (∀ e ∈ events_since w1.k w2.k, is_sg_free e = false) ∧
      (w.ctx.is_callback ≠ 0 → events_since w1.k w2.k = []) ∧
      (w.ctx.is_callback = 0 → events_since w1.k w2.k =
        (match w.ctx.dma_mapping with
          | some dm => [Event.nvidia_p2p_dma_unmap_pages pdev w.ctx.page_table dm]
          | none => []) ++
        [Event.nvidia_p2p_put_pages w.ctx.page_virt_start w.ctx.page_table]) := by
  obtain ⟨w1, h1, hc1, _, _, _⟩ := run_ops_spec E pdev [Op.unmap, Op.unpin] w
  have hfields : w1.ctx.sg_allocated = 0 ∧ w1.ctx.is_callback = w.ctx.is_callback ∧
      w1.ctx.dma_mapping = w.ctx.dma_mapping ∧ w1.ctx.page_table = w.ctx.page_table ∧
      w1.ctx.page_virt_start = w.ctx.page_virt_start := by
    rw [hc1]
    by_cases hs : w.ctx.sg_allocated = 0 <;> simp [ops_ctx, op_ctx, hs]
  obtain ⟨hsg0, hflag, hdm, hpt, hva⟩ := hfields
  obtain ⟨w2, h2, hc2, hl2, _, hs2⟩ := run_ops_spec E pdev [Op.unmap, Op.unpin] w1
  have hctx : w2.ctx = w1.ctx := by
    rw [hc2]; simp [ops_ctx, op_ctx, hsg0]
  have hsgh : w2.sg_head = w1.sg_head := by
    rw [hs2]; simp [ops_sg, op_sg, op_ctx, hsg0]
  refine ⟨w1, w2, h1, h2, hctx, hsgh, hdm, ?_, ?_, ?_⟩ <;>
    rw [events_since_append w1.k w2.k _ hl2]
  · intro e he
    by_cases hcb : w.ctx.is_callback = 0 <;> cases hd : w.ctx.dma_mapping <;>
      simp [ops_events, op_events, op_ctx, hsg0, hflag, hdm, hcb, hd] at he
    · subst he; rfl
    · rcases he with rfl | rfl <;> rfl
  · intro hcb
    simp [ops_events, op_events, op_ctx, hsg0, hflag, hcb]
  · intro hcb
    cases hd : w.ctx.dma_mapping <;>
      simp [ops_events, op_events, op_ctx, hsg0, hflag, hdm, hpt, hva, hcb, hd]

/-- C3 counterexample: the sample descriptor, mapped and not invalidated. The
first explicit pass leaves the DMA mapping handle in the descriptor, and the
second pass calls `nvidia_p2p_dma_unmap_pages` and `nvidia_p2p_put_pages` again. -/
theorem C3_counterexample :
    ∃ w1 w2,
      unmap_then_unpin sample_env (some 3)
        { ctx := sample_mapped, sg_head := sample_table, k := sample_kernel_mapped } = some w1 ∧
      unmap_then_unpin sample_env (some 3) w1 = some w2 ∧
      w1.ctx.dma_mapping = some sample_dma_mapping ∧
      events_since w1.k w2.k =
        [Event.nvidia_p2p_dma_unmap_pages (some 3) (some sample_page_table) sample_dma_mapping,
          Event.nvidia_p2p_put_pages 65536 (some sample_page_table)] := by
  refine ⟨_, _, rfl, rfl, ?_, ?_⟩ <;> decide

/-! ## C4: the order of effects of the Invalidation Dispatcher -/

/-- C4. For every descriptor with both handles present and every environment
(so whatever status either free returns), one run of the Invalidation
Dispatcher leaves the descriptor with only the flag changed (set to 1) and
appends exactly four effects in this order: the store of 1 to the flag, one
upstream notification with `reg_handle` and the descriptor's `core_context`,
the free of the DMA mapping handle found on entry, the free of the page-table
handle found on entry. The notification is issued exactly once, and the store
to the flag precedes it. -/
theorem C4_dispatcher_sequence (E : Env) (c : nv_mem_context) (k : Kernel)
    (pt : nvidia_p2p_page_table) (dm : nvidia_p2p_dma_mapping)
    (hpt : c.page_table = some pt) (hdm : c.dma_mapping = some dm) :
    (nv_get_p2p_free_callback E (some c) k).1 = some { c with is_callback := 1 } ∧
    events_since k (nv_get_p2p_free_callback E (some c) k).2 =
      [Event.write_once_is_callback 1, Event.mem_invalidate_callback E.reg_handle c.core_context,
        Event.nvidia_p2p_free_dma_mapping dm, Event.nvidia_p2p_free_page_table (some pt)] ∧
    (events_since k (nv_get_p2p_free_callback E (some c) k).2).countP is_notification = 1 ∧
    (∀ pre post r cc, events_since k (nv_get_p2p_free_callback E (some c) k).2 =
        pre ++ Event.mem_invalidate_callback r cc :: post →
      Event.write_once_is_callback 1 ∈ pre) := by
  obtain ⟨h1, h2, _⟩ := dispatcher_spec E c k
  have hev := events_since_append k _ _ h2
  have hops : op_events E none Op.dispatcher c =
      [Event.write_once_is_callback 1, Event.mem_invalidate_callback E.reg_handle c.core_context,
        Event.nvidia_p2p_free_dma_mapping dm, Event.nvidia_p2p_free_page_table (some pt)] := by
    simp [op_events, hpt, hdm]
  rw [hev, hops]
  refine ⟨?_, rfl, ?_, ?_⟩
  · rw [h1]; simp [op_ctx, hpt, hdm]
  · simp [List.countP_cons, is_notification]
  · intro pre post r cc h
    match pre, h with
    | [], h => simp at h
    | [a], h =>
      simp only [List.cons_append, List.nil_append, List.cons.injEq] at h
      simp [h.1]
    | [_, _], h => simp at h
    | [_, _, _], h => simp at h
    | _ :: _ :: _ :: _ :: _, h => simp at h

/-- C4 witness: the dispatcher on the sample mapped descriptor. -/
theorem C4_dispatcher_sequence_witness :
    (nv_get_p2p_free_callback sample_env (some sample_mapped) sample_kernel_mapped).1 =
      some { sample_mapped with is_callback := 1 } ∧
    events_since sample_kernel_mapped
        (nv_get_p2p_free_callback sample_env (some sample_mapped) sample_kernel_mapped).2 =
      [Event.write_once_is_callback 1,
        Event.mem_invalidate_callback sample_env.reg_handle sample_mapped.core_context,
        Event.nvidia_p2p_free_dma_mapping sample_dma_mapping,
        Event.nvidia_p2p_free_page_table (some sample_page_table)] ∧
    (events_since sample_kernel_mapped
      (nv_get_p2p_free_callback sample_env (some sample_mapped)
        sample_kernel_mapped).2).countP is_notification = 1 ∧
    (∀ pre post r cc, events_since sample_kernel_mapped
        (nv_get_p2p_free_callback sample_env (some sample_mapped) sample_kernel_mapped).2 =
        pre ++ Event.mem_invalidate_callback r cc :: post →
      Event.write_once_is_callback 1 ∈ pre) :=
  C4_dispatcher_sequence sample_env sample_mapped sample_kernel_mapped sample_page_table
    sample_dma_mapping (by decide) (by decide)

/-- The callback registered by the latest pin, when the pin is the last effect. -/
theorem registered_callback_append_pin (log : List Event) (va len : Nat) (cb : free_callback) :
    registered_callback (log ++ [Event.nvidia_p2p_get_pages va len cb]) = some cb := by
  simp [registered_callback, callback_of]

/-- The history after Pin on a non-null descriptor: one pin is appended, with
the Invalidation Dispatcher as its callback. -/
theorem get_pages_log (E : Env) (addr size : Nat) (write force : Int) (sg : sg_table)
    (c0 : nv_mem_context) (core : Nat) (k : Kernel) :
    (nv_mem_get_pages E addr size write force sg (some c0) core k).2.2.log =
      k.log ++ [Event.nvidia_p2p_get_pages c0.page_virt_start c0.mapped_size
        free_callback.nv_get_p2p_free_callback] := by
  unfold nv_mem_get_pages
  simp only []
  split_ifs <;> simp

/-! ## C5: invalidation of a descriptor that was pinned but not mapped -/

/-- C5 (as amended). For every descriptor that Pin pinned and whose DMA mapping
handle is absent, the callback the Pinning Service was given for that pin is
the Invalidation Dispatcher `nv_get_p2p_free_callback`; run on that descriptor
it returns, sends no upstream notification, frees nothing (it adds no effect
at all) and leaves the descriptor and the reference count as they were. The
callback that frees the page-table handle exactly once without a notification
is `nv_mem_dummy_callback`, on every non-null descriptor; it is the callback
Probe registers for its own pin. -/
theorem C5_unmapped_invalidation (E : Env) (addr size : Nat) (write force : Int)
    (sg : sg_table) (c0 c1 : nv_mem_context) (core : Nat) (k k1 : Kernel)
    (hpin : nv_mem_get_pages E addr size write force sg (some c0) core k = (0, some c1, k1))
    (hdm : c1.dma_mapping = none) :
    registered_callback k1.log = some free_callback.nv_get_p2p_free_callback ∧
    (∃ k2, run_free_callback E free_callback.nv_get_p2p_free_callback (some c1) k1 =
        some (c1, k2) ∧ events_since k1 k2 = [] ∧ k2.refcnt = k1.refcnt) ∧
    (∀ (c : nv_mem_context) (k3 : Kernel), ∃ k4,
      run_free_callback E free_callback.nv_mem_dummy_callback (some c) k3 = some (c, k4) ∧
      events_since k3 k4 = [Event.nvidia_p2p_free_page_table c.page_table] ∧
      k4.refcnt = k3.refcnt) ∧
    (∀ (a s : Nat) (k5 : Kernel), E.kzalloc k5.log = true →
      registered_callback (nv_mem_acquire E a s k5).2.2.log =
        some free_callback.nv_mem_dummy_callback) := by
  refine ⟨?_, ?_, ?_, ?_⟩
  · have h := get_pages_log E addr size write force sg c0 core k
    rw [hpin] at h
    simp only [] at h
    rw [h]
    exact registered_callback_append_pin _ _ _ _
  · obtain ⟨h1, h2, h3⟩ := dispatcher_spec E c1 k1
    have hctx : op_ctx Op.dispatcher c1 = c1 := by
      cases hp : c1.page_table <;> simp [op_ctx, hp, hdm]
    have hev : op_events E none Op.dispatcher c1 = [] := by
      cases hp : c1.page_table <;> simp [op_events, hp, hdm]
    rw [hctx] at h1
    rw [hev, List.append_nil] at h2
    refine ⟨(nv_get_p2p_free_callback E (some c1) k1).2, ?_, ?_, h3⟩
    · simp only [run_free_callback]
      generalize nv_get_p2p_free_callback E (some c1) k1 = r at h1
      obtain ⟨a, b⟩ := r
      simp only at h1
      subst h1
      rfl
    · exact events_since_append k1 _ [] (by rw [h2, List.append_nil])
  · intro c k3
    refine ⟨_, rfl, ?_, ?_⟩
    · apply events_since_append
      simp
    · simp
  · intro a s k5 hk
    unfold nv_mem_acquire
    simp only [hk, Bool.not_true, Bool.false_eq_true, if_false]
    split_ifs <;> simp [registered_callback, callback_of]

/-- C5 witness: the sample descriptor after Probe and Pin. -/
theorem C5_unmapped_invalidation_witness :
    registered_callback sample_kernel_pinned.log = some free_callback.nv_get_p2p_free_callback ∧
    (∃ k2, run_free_callback sample_env free_callback.nv_get_p2p_free_callback
          (some sample_pinned) sample_kernel_pinned = some (sample_pinned, k2) ∧
        events_since sample_kernel_pinned k2 = [] ∧ k2.refcnt = sample_kernel_pinned.refcnt) ∧
    (∀ (c : nv_mem_context) (k3 : Kernel), ∃ k4,
      run_free_callback sample_env free_callback.nv_mem_dummy_callback (some c) k3 =
        some (c, k4) ∧
      events_since k3 k4 = [Event.nvidia_p2p_free_page_table c.page_table] ∧
      k4.refcnt = k3.refcnt) ∧
    (∀ (a s : Nat) (k5 : Kernel), sample_env.kzalloc k5.log = true →
      registered_callback (nv_mem_acquire sample_env a s k5).2.2.log =
        some free_callback.nv_mem_dummy_callback) :=
  C5_unmapped_invalidation sample_env 65536 32768 1 0 { sgl := [] } sample_probed sample_pinned 5
    sample_kernel_probed sample_kernel_pinned (by decide) (by decide)

/-- C5 counterexample: the sample descriptor is pinned by Pin and not mapped;
the callback registered for that pin is the dispatcher, and running it leaves
the page-table handle with no release at all (zero frees, not one). -/
theorem C5_counterexample :
    nv_mem_get_pages sample_env 65536 32768 1 0 { sgl := [] } (some sample_probed) 5
        sample_kernel_probed = (0, some sample_pinned, sample_kernel_pinned) ∧
    sample_pinned.page_table = some sample_page_table ∧
    sample_pinned.dma_mapping = none ∧
    registered_callback sample_kernel_pinned.log = some free_callback.nv_get_p2p_free_callback ∧
    ∃ c k, run_free_callback sample_env free_callback.nv_get_p2p_free_callback
        (some sample_pinned) sample_kernel_pinned = some (c, k) ∧
      (events_since sample_kernel_pinned k).countP
        (is_page_table_release sample_page_table) = 0 := by
  refine ⟨by decide, by decide, by decide, by decide, _, _, rfl, by decide⟩

/-! ## C6: Map releases the mapping it obtained when it then fails -/

/-- C6. For every call of Map on a descriptor with a 64 KiB page table in which
the DMA Mapping Service returned status 0 and a mapping handle: Map returns;
it fails (non-zero return value) exactly when the mapping's version is
incompatible or the scatterlist allocation fails; and when it fails it has
issued exactly one release of that handle, `nvidia_p2p_dma_unmap_pages` with
the same device and page table, as its last effect, and the descriptor's
`dma_mapping` and `sg_allocated` and the caller's `*nmap` are unchanged. -/
theorem C6_map_failure_releases_mapping (E : Env) (sg : sg_table) (c : nv_mem_context)
    (pt : nvidia_p2p_page_table) (dev : Nat) (dmasync nmap : Int) (k : Kernel)
    (dm : nvidia_p2p_dma_mapping)
    (hpt : c.page_table = some pt) (hsize : pt.page_size = E.NVIDIA_P2P_PAGE_SIZE_64KB)
    (hsvc : E.nvidia_p2p_dma_map_pages k.log dev pt = (0, some dm)) :
    ∃ m, nv_dma_map E sg (some c) (some dev) dmasync nmap k = some m ∧
      (m.ret ≠ 0 ↔ (E.NVIDIA_P2P_DMA_MAPPING_VERSION_COMPATIBLE dm = false ∨
        E.sg_alloc_table (k.log ++ [Event.nvidia_p2p_dma_map_pages dev pt]) dm.entries ≠ 0)) ∧
      (m.ret ≠ 0 →
        (events_since k m.k).countP (is_dma_release dm) = 1 ∧
        (events_since k m.k).getLast? =
          some (Event.nvidia_p2p_dma_unmap_pages (some dev) (some pt) dm) ∧
        m.ctx.dma_mapping = c.dma_mapping ∧ m.ctx.sg_allocated = c.sg_allocated ∧
        m.nmap = nmap) := by
  unfold nv_dma_map
  simp only [hpt, hsize, ne_eq, not_true_eq_false, if_false, hsvc]
  by_cases hv : E.NVIDIA_P2P_DMA_MAPPING_VERSION_COMPATIBLE dm = true
  · by_cases ha : E.sg_alloc_table (k.log ++ [Event.nvidia_p2p_dma_map_pages dev pt]) dm.entries = 0
    · refine ⟨_, by simp [hv, sg_alloc_table, ha]; rfl, ?_, ?_⟩ <;> simp [hv, ha]
    · refine ⟨_, by simp [hv, sg_alloc_table, ha]; rfl, ?_, ?_⟩
      · simp [hv, ha]
      · intro _
        simp [events_since, is_dma_release, List.countP_cons]
  · simp only [Bool.not_eq_true] at hv
    refine ⟨_, by simp [hv]; rfl, ?_, ?_⟩
    · simp [hv, EINVAL]
    · intro _
      simp [events_since, is_dma_release, List.countP_cons]

/-- C6 witness: Map in the sample environment with an incompatible mapping version. -/
theorem C6_map_failure_releases_mapping_witness :
    ∃ m, nv_dma_map sample_env_bad_version { sgl := [] } (some sample_pinned) (some 3) 0 0
        sample_kernel_pinned = some m ∧
      (m.ret ≠ 0 ↔
        (sample_env_bad_version.NVIDIA_P2P_DMA_MAPPING_VERSION_COMPATIBLE sample_dma_mapping
            = false ∨
          sample_env_bad_version.sg_alloc_table (sample_kernel_pinned.log ++
            [Event.nvidia_p2p_dma_map_pages 3 sample_page_table]) sample_dma_mapping.entries
            ≠ 0)) ∧
      (m.ret ≠ 0 →
        (events_since sample_kernel_pinned m.k).countP (is_dma_release sample_dma_mapping) = 1 ∧
        (events_since sample_kernel_pinned m.k).getLast? =
          some (Event.nvidia_p2p_dma_unmap_pages (some 3) (some sample_page_table)
            sample_dma_mapping) ∧
        m.ctx.dma_mapping = sample_pinned.dma_mapping ∧
        m.ctx.sg_allocated = sample_pinned.sg_allocated ∧ m.nmap = 0) :=
  C6_map_failure_releases_mapping sample_env_bad_version { sgl := [] } sample_pinned
    sample_page_table 3 0 0 sample_kernel_pinned sample_dma_mapping (by decide) (by decide)
    (by decide)

/-- The loop keeps the number of entries. -/
theorem for_each_sg_length (ps : Nat) (a : List Nat) (nr : Nat) :
    ∀ (l : List scatterlist) (i : Nat), (for_each_sg ps a nr i l).length = l.length := by
  intro l
  induction l with
  | nil => intro i; rfl
  | cons sg rest ih =>
    intro i
    unfold for_each_sg
    split_ifs
    · simp [ih]
    · rfl

/-- When the bound covers the whole list and fits an `int`, entry `j` of the
result is the segment the loop body builds for index `i + j`. -/
theorem for_each_sg_get (ps : Nat) (a : List Nat) (nr : Nat) (hnr : nr ≤ 2 ^ 31) :
    ∀ (l : List scatterlist) (i j : Nat), i + l.length ≤ nr → j < l.length →
      (for_each_sg ps a nr i l)[j]? = some (set_segment ps a (i + j) zeroed_sg) := by
  intro l
  induction l with
  | nil => intro i j _ hj; simp at hj
  | cons sg rest ih =>
    intro i j hi hj
    simp only [List.length_cons] at hi hj
    have hc : i < nr ∧ i < 2 ^ 31 := ⟨by omega, by omega⟩
    unfold for_each_sg
    rw [if_pos hc]
    cases j with
    | zero => simp [set_segment]
    | succ j =>
      simp only [List.getElem?_cons_succ]
      rw [ih (i + 1) j (by omega) (by omega)]
      congr 2
      omega

/-- The shape of a successful Map: the checks it passed and the result it built. -/
theorem dma_map_success_shape (E : Env) (sg : sg_table) (c : nv_mem_context)
    (pdev : Option Nat) (dmasync nmap : Int) (k : Kernel) (m : dma_map_result)
    (h : nv_dma_map E sg (some c) pdev dmasync nmap k = some m) (hret : m.ret = 0) :
    ∃ dev pt dm, pdev = some dev ∧ c.page_table = some pt ∧
      pt.page_size = E.NVIDIA_P2P_PAGE_SIZE_64KB ∧
      (E.nvidia_p2p_dma_map_pages k.log dev pt).1 = 0 ∧
      (E.nvidia_p2p_dma_map_pages k.log dev pt).2 = some dm ∧
      m.ctx = { c with npages := dm.entries, dma_mapping := some dm, sg_allocated := 1 } ∧
      m.sg_head.sgl = for_each_sg c.page_size dm.dma_addresses dm.entries 0
        (List.replicate dm.entries zeroed_sg) ∧
      m.nmap = to_int dm.entries ∧
      m.k.log = k.log ++ [Event.nvidia_p2p_dma_map_pages dev pt,
        Event.sg_alloc_table dm.entries] := by
  unfold nv_dma_map at h
  simp only [] at h
  split at h
  · simp at h
  · rename_i pt hpt
    split_ifs at h with h1
    · simp at h; subst h; simp [EINVAL] at hret
    · split at h
      · simp at h; subst h; simp [EINVAL] at hret
      · rename_i dev
        split_ifs at h with h2
        · simp at h; subst h; exact absurd hret h2
        · split at h
          · simp at h
          · rename_i dm hdm
            split_ifs at h with h3 h4
            · simp at h; subst h; simp [EINVAL] at hret
            · simp at h; subst h; exact absurd hret h4
            · simp only [ne_eq, not_not] at h1 h2
              by_cases h5 : E.sg_alloc_table (k.log ++ [Event.nvidia_p2p_dma_map_pages dev pt])
                  dm.entries = 0
              · simp only [Option.some.injEq] at h
                subst h
                refine ⟨dev, pt, dm, rfl, hpt, h1, h2, hdm, rfl, ?_, rfl, ?_⟩
                · simp [sg_alloc_table, h5]
                · simp [sg_alloc_table, h5]
              · simp [sg_alloc_table, h5] at h4

/-- The result of Map when every check passes. -/
theorem dma_map_success_result (E : Env) (sg : sg_table) (c : nv_mem_context)
    (pt : nvidia_p2p_page_table) (dev : Nat) (dmasync nmap : Int) (k : Kernel)
    (dm : nvidia_p2p_dma_mapping)
    (hpt : c.page_table = some pt) (hsize : pt.page_size = E.NVIDIA_P2P_PAGE_SIZE_64KB)
    (hsvc : E.nvidia_p2p_dma_map_pages k.log dev pt = (0, some dm))
    (hv : E.NVIDIA_P2P_DMA_MAPPING_VERSION_COMPATIBLE dm = true)
    (ha : E.sg_alloc_table (k.log ++ [Event.nvidia_p2p_dma_map_pages dev pt]) dm.entries = 0) :
    ∃ m, nv_dma_map E sg (some c) (some dev) dmasync nmap k = some m ∧ m.ret = 0 ∧
      m.ctx.npages = dm.entries ∧ m.nmap = to_int dm.entries := by
  unfold nv_dma_map
  simp only [hpt, hsize, ne_eq, not_true_eq_false, if_false, hsvc]
  refine ⟨_, by simp [hv, sg_alloc_table, ha]; rfl, ?_, ?_, ?_⟩ <;> simp

/-! ## C7: the segments Map builds -/

/-- C7 (as amended). For every descriptor that went through Pin and every
mapping the DMA Mapping Service returned for it, if Map returns success then
the descriptor's `npages` and the number of entries of the caller's table equal
the mapping's `entries`; and when `entries` is below `2 ^ 31` (it fits the
`int` behind `nmap`), `*nmap` equals `entries` too, and for every `i` below
`entries` segment `i` carries the device address `dma_addresses[i]` and the
lengths `length` and `dma_length` 65536. -/
theorem C7_map_segments (E : Env) (addr size core : Nat) (write force dmasync nmap : Int)
    (sg0 : sg_table) (c0 c1 : nv_mem_context) (k0 k1 : Kernel) (pdev : Option Nat)
    (m : dma_map_result)
    (hpin : nv_mem_get_pages E addr size write force sg0 (some c0) core k0 = (0, some c1, k1))
    (hmap : nv_dma_map E sg0 (some c1) pdev dmasync nmap k1 = some m) (hret : m.ret = 0) :
    ∃ dev pt dm, pdev = some dev ∧ c1.page_table = some pt ∧
      (E.nvidia_p2p_dma_map_pages k1.log dev pt).2 = some dm ∧
      m.ctx.dma_mapping = some dm ∧ m.ctx.npages = dm.entries ∧
      m.sg_head.sgl.length = dm.entries ∧
      (dm.entries < 2 ^ 31 →
        m.nmap = (dm.entries : Int) ∧
        ∀ i, i < dm.entries → ∃ seg, m.sg_head.sgl[i]? = some seg ∧
          seg.dma_address = dm.dma_addresses.getD i 0 ∧
          seg.dma_length = 65536 ∧ seg.length = 65536) := by
  obtain ⟨_, _, _, hps, _⟩ := get_pages_fields E addr size write force sg0 c0 c1 core k0 k1 0 hpin
  obtain ⟨dev, pt, dm, hdev, hpt, _, _, hdm, hctx, hsgl, hnmap, _⟩ :=
    dma_map_success_shape E sg0 c1 pdev dmasync nmap k1 m hmap hret
  refine ⟨dev, pt, dm, hdev, hpt, hdm, by rw [hctx], by rw [hctx], ?_, ?_⟩
  · rw [hsgl, for_each_sg_length]; simp
  · intro hlt
    constructor
    · rw [hnmap]
      unfold to_int
      have h1 : dm.entries % 2 ^ 32 = dm.entries := Nat.mod_eq_of_lt (by omega)
      rw [h1, if_pos hlt]
    · intro i hi
      refine ⟨set_segment c1.page_size dm.dma_addresses (0 + i) zeroed_sg, ?_, ?_, ?_, ?_⟩
      · rw [hsgl]
        exact for_each_sg_get c1.page_size dm.dma_addresses dm.entries (by omega) _ 0 i
          (by simp) (by simpa using hi)
      · simp [set_segment]
      · simp [set_segment, hps, GPU_PAGE_SIZE, GPU_PAGE_SHIFT]
      · simp [set_segment, hps, GPU_PAGE_SIZE, GPU_PAGE_SHIFT]

/-- C7 witness: Pin and Map in the sample environment. -/
theorem C7_map_segments_witness :
    ∃ dev pt dm, some 3 = some dev ∧ sample_pinned.page_table = some pt ∧
      (sample_env.nvidia_p2p_dma_map_pages sample_kernel_pinned.log dev pt).2 = some dm ∧
      sample_map_result.ctx.dma_mapping = some dm ∧ sample_map_result.ctx.npages = dm.entries ∧
      sample_map_result.sg_head.sgl.length = dm.entries ∧
      (dm.entries < 2 ^ 31 →
        sample_map_result.nmap = (dm.entries : Int) ∧
        ∀ i, i < dm.entries → ∃ seg, sample_map_result.sg_head.sgl[i]? = some seg ∧
          seg.dma_address = dm.dma_addresses.getD i 0 ∧
          seg.dma_length = 65536 ∧ seg.length = 65536) :=
  C7_map_segments sample_env 65536 32768 5 1 0 0 0 { sgl := [] } sample_probed sample_pinned
    sample_kernel_probed sample_kernel_pinned (some 3) sample_map_result
    (by decide) (by decide) (by decide)

/-- C7 counterexample: the DMA Mapping Service returns a mapping of `2 ^ 31`
entries for the pinned sample descriptor and the table allocation succeeds.
Map returns success with `npages` equal to 2147483648, but `*nmap`, an `int`,
holds -2147483648, which is not the number of entries. -/
theorem C7_counterexample :
    nv_mem_get_pages sample_env_huge 65536 32768 1 0 { sgl := [] } (some sample_probed) 5
        sample_kernel_probed = (0, some sample_pinned, sample_kernel_pinned) ∧
    ∃ m, nv_dma_map sample_env_huge { sgl := [] } (some sample_pinned) (some 3) 0 0
        sample_kernel_pinned = some m ∧
      m.ret = 0 ∧ m.ctx.npages = 2147483648 ∧ m.nmap = -2147483648 ∧
      m.nmap ≠ ((huge_dma_mapping.entries : Nat) : Int) := by
  refine ⟨by decide, ?_⟩
  obtain ⟨m, h1, h2, h3, h4⟩ := dma_map_success_result sample_env_huge { sgl := [] }
    sample_pinned sample_page_table 3 0 0 sample_kernel_pinned huge_dma_mapping rfl rfl rfl rfl rfl
  have h5 : to_int huge_dma_mapping.entries = -2147483648 := by
    simp [to_int, huge_dma_mapping]
  rw [h5] at h4
  refine ⟨m, h1, h2, h3, h4, ?_⟩
  rw [h4]
  simp [huge_dma_mapping]

/-! ## C8: Map on a page table of another granularity -/

/-- C8. For every descriptor whose page table reports a page size other than
`NVIDIA_P2P_PAGE_SIZE_64KB`, Map returns `-EINVAL` (-22), adds no effect to the
history (so it makes no call to the DMA Mapping Service), and leaves the
caller's table, the descriptor and `*nmap` unchanged. -/
theorem C8_wrong_granularity (E : Env) (sg : sg_table) (c : nv_mem_context)
    (pt : nvidia_p2p_page_table) (pdev : Option Nat) (dmasync nmap : Int) (k : Kernel)
    (hpt : c.page_table = some pt) (hsize : pt.page_size ≠ E.NVIDIA_P2P_PAGE_SIZE_64KB) :
    ∃ m, nv_dma_map E sg (some c) pdev dmasync nmap k = some m ∧ m.ret = -EINVAL ∧
      m.ret = -22 ∧ events_since k m.k = [] ∧ m.sg_head = sg ∧ m.ctx = c ∧ m.nmap = nmap := by
  refine ⟨⟨-EINVAL, sg, c, nmap, peer_err 207 k⟩, ?_, rfl, rfl, ?_, rfl, rfl, rfl⟩
  · simp [nv_dma_map, hpt, hsize]
  · simp [events_since]

/-- C8 witness: the pinned sample descriptor with a page table of 4 KiB pages. -/
theorem C8_wrong_granularity_witness :
    ∃ m, nv_dma_map sample_env { sgl := [] }
        (some { sample_pinned with page_table := some small_page_table }) (some 3) 0 0
        sample_kernel_pinned = some m ∧ m.ret = -EINVAL ∧
      m.ret = -22 ∧ events_since sample_kernel_pinned m.k = [] ∧ m.sg_head = { sgl := [] } ∧
      m.ctx = { sample_pinned with page_table := some small_page_table } ∧ m.nmap = 0 :=
  C8_wrong_granularity sample_env { sgl := [] }
    { sample_pinned with page_table := some small_page_table } small_page_table (some 3) 0 0
    sample_kernel_pinned (by decide) (by decide)

/-! ## C9: Map after an invalidation that followed Pin -/

/-- C9. For every descriptor Probe handed back and Pin then pinned: the
callback registered by that Pin runs to completion and leaves the descriptor
as it was; and if Map is then called and the DMA Mapping Service's map call
(made for a 64 KiB page table and a device) answers a non-zero status `r`, Map
returns `r`, its only effect is that one map call (nothing is released), the
caller's table and `*nmap` are unchanged (no segments are built), and the
descriptor is unchanged with `dma_mapping` absent and `sg_allocated` zero. -/
theorem C9_map_after_invalidation (E : Env) (addr size core : Nat) (write force : Int)
    (sg0 : sg_table) (k0 k1 k2 : Kernel) (c0 c1 : nv_mem_context)
    (hacq : nv_mem_acquire E addr size k0 = (1, some c0, k1))
    (hpin : nv_mem_get_pages E addr size write force sg0 (some c0) core k1 = (0, some c1, k2)) :
    ∃ cb k3, registered_callback k2.log = some cb ∧
      run_free_callback E cb (some c1) k2 = some (c1, k3) ∧
      ∀ (sg : sg_table) (dev : Nat) (pt : nvidia_p2p_page_table) (dmasync nmap r : Int),
        c1.page_table = some pt → pt.page_size = E.NVIDIA_P2P_PAGE_SIZE_64KB →
        (E.nvidia_p2p_dma_map_pages k3.log dev pt).1 = r → r ≠ 0 →
        ∃ m, nv_dma_map E sg (some c1) (some dev) dmasync nmap k3 = some m ∧ m.ret = r ∧
          events_since k3 m.k = [Event.nvidia_p2p_dma_map_pages dev pt] ∧
          m.sg_head = sg ∧ m.nmap = nmap ∧ m.ctx = c1 ∧
          m.ctx.dma_mapping = none ∧ m.ctx.sg_allocated = 0 := by
  obtain ⟨hdm0, _, hsg0, _⟩ := acquire_owned_fields E addr size k0 k1 c0 hacq
  obtain ⟨hdm1, _, hsg1, _, _⟩ :=
    get_pages_fields E addr size write force sg0 c0 c1 core k1 k2 0 hpin
  have hdm : c1.dma_mapping = none := by rw [hdm1, hdm0]
  have hsg : c1.sg_allocated = 0 := by rw [hsg1, hsg0]
  have hreg : registered_callback k2.log = some free_callback.nv_get_p2p_free_callback := by
    have h := get_pages_log E addr size write force sg0 c0 core k1
    rw [hpin] at h
    simp only [] at h
    rw [h]
    exact registered_callback_append_pin _ _ _ _
  obtain ⟨h1, _, _⟩ := dispatcher_spec E c1 k2
  have hctx : op_ctx Op.dispatcher c1 = c1 := by
    cases hp : c1.page_table <;> simp [op_ctx, hp, hdm]
  rw [hctx] at h1
  refine ⟨free_callback.nv_get_p2p_free_callback, (nv_get_p2p_free_callback E (some c1) k2).2,
    hreg, ?_, ?_⟩
  · simp only [run_free_callback]
    generalize nv_get_p2p_free_callback E (some c1) k2 = r at h1
    obtain ⟨a, b⟩ := r
    simp only at h1
    subst h1
    rfl
  · intro sg dev pt dmasync nmap r hpt hsize hr hne
    refine ⟨⟨r, sg, c1, nmap, peer_err 219 (emit (Event.nvidia_p2p_dma_map_pages dev pt)
      (nv_get_p2p_free_callback E (some c1) k2).2)⟩, ?_, rfl, ?_, rfl, rfl, rfl, hdm, hsg⟩
    · simp [nv_dma_map, hpt, hsize, hr, hne]
    · simp [events_since]

/-- C9 witness: Probe and Pin in the sample environment whose DMA Mapping
Service fails. -/
theorem C9_map_after_invalidation_witness :
    ∃ cb k3, registered_callback sample_kernel_pinned.log = some cb ∧
      run_free_callback sample_env_map_fails cb (some sample_pinned) sample_kernel_pinned =
        some (sample_pinned, k3) ∧
      ∀ (sg : sg_table) (dev : Nat) (pt : nvidia_p2p_page_table) (dmasync nmap r : Int),
        sample_pinned.page_table = some pt →
        pt.page_size = sample_env_map_fails.NVIDIA_P2P_PAGE_SIZE_64KB →
        (sample_env_map_fails.nvidia_p2p_dma_map_pages k3.log dev pt).1 = r → r ≠ 0 →
        ∃ m, nv_dma_map sample_env_map_fails sg (some sample_pinned) (some dev) dmasync nmap k3 =
            some m ∧ m.ret = r ∧
          events_since k3 m.k = [Event.nvidia_p2p_dma_map_pages dev pt] ∧
          m.sg_head = sg ∧ m.nmap = nmap ∧ m.ctx = sample_pinned ∧
          m.ctx.dma_mapping = none ∧ m.ctx.sg_allocated = 0 :=
  C9_map_after_invalidation sample_env_map_fails 65536 32768 5 1 0 { sgl := [] } sample_kernel
    sample_kernel_probed sample_kernel_pinned sample_probed sample_pinned (by decide) (by decide)

/-! ## C10: what Probe reports -/

/-- C10. For every address and size, with `pin` the answer of the Pinning
Service to Probe's pin and `unpin` its answer to the unpin that follows: when
the allocation succeeds and both answers are non-negative, Probe returns 1,
hands a context back and raises the reference count by exactly one; in every
other case it returns 0, hands no context back and leaves the reference count
unchanged. -/
theorem C10_probe_ownership (E : Env) (addr size : Nat) (k : Kernel) :
    let start := addr &&& GPU_PAGE_MASK
    let stop := (addr + size + GPU_PAGE_SIZE - 1) % 2 ^ 64 &&& GPU_PAGE_MASK
    let len := (stop + (2 ^ 64 - start)) % 2 ^ 64
    let pin := E.nvidia_p2p_get_pages (k.log ++ [Event.kzalloc]) start len
      free_callback.nv_mem_dummy_callback
    let unpin := E.nvidia_p2p_put_pages (k.log ++ [Event.kzalloc,
      Event.nvidia_p2p_get_pages start len free_callback.nv_mem_dummy_callback]) start pin.2
    let owned := E.kzalloc k.log = true ∧ 0 ≤ pin.1 ∧ 0 ≤ unpin
    let r := nv_mem_acquire E addr size k
    (owned → r.1 = 1 ∧ r.2.1.isSome = true ∧ r.2.2.refcnt = k.refcnt + 1) ∧
    (¬ owned → r.1 = 0 ∧ r.2.1 = none ∧ r.2.2.refcnt = k.refcnt) := by
  intro start stop len pin unpin owned r
  have hr : r = nv_mem_acquire E addr size k := rfl
  unfold nv_mem_acquire at hr
  simp only [zeroed_context, emit_log, List.append_assoc, List.singleton_append] at hr
  by_cases ha : E.kzalloc k.log = true
  · by_cases hp : pin.1 < 0
    · have hno : ¬ owned := fun h => absurd h.2.1 (not_le.mpr hp)
      refine ⟨fun h => absurd h hno, fun _ => ?_⟩
      rw [hr]
      simp [ha, pin, start, stop, len] at hp ⊢
      simp [hp]
    · by_cases hu : unpin < 0
      · have hno : ¬ owned := fun h => absurd h.2.2 (not_le.mpr hu)
        refine ⟨fun h => absurd h hno, fun _ => ?_⟩
        rw [hr]
        simp [ha, pin, unpin, start, stop, len] at hp hu ⊢
        simp [not_lt.mpr hp, hu]
      · have hyes : owned := ⟨ha, not_lt.mp hp, not_lt.mp hu⟩
        refine ⟨fun _ => ?_, fun h => absurd hyes h⟩
        rw [hr]
        simp [ha, pin, unpin, start, stop, len] at hp hu ⊢
        simp [not_lt.mpr hp, not_lt.mpr hu]
  · have hno : ¬ owned := fun h => absurd h.1 ha
    refine ⟨fun h => absurd h hno, fun _ => ?_⟩
    rw [hr]
    simp [ha]

/-! ## C11: the pin and the unpin inside Probe -/

/-- The effects of Probe, by the answers it receives. -/
theorem acquire_events (E : Env) (addr size : Nat) (k : Kernel) :
    let start := addr &&& GPU_PAGE_MASK
    let stop := (addr + size + GPU_PAGE_SIZE - 1) % 2 ^ 64 &&& GPU_PAGE_MASK
    let len := (stop + (2 ^ 64 - start)) % 2 ^ 64
    let pin := E.nvidia_p2p_get_pages (k.log ++ [Event.kzalloc]) start len
      free_callback.nv_mem_dummy_callback
    let unpin := E.nvidia_p2p_put_pages (k.log ++ [Event.kzalloc,
      Event.nvidia_p2p_get_pages start len free_callback.nv_mem_dummy_callback]) start pin.2
    events_since k (nv_mem_acquire E addr size k).2.2 =
      if E.kzalloc k.log = true then
        [Event.kzalloc, Event.nvidia_p2p_get_pages start len free_callback.nv_mem_dummy_callback]
          ++ (if pin.1 < 0 then [Event.kfree]
              else [Event.nvidia_p2p_put_pages start pin.2]
                ++ (if unpin < 0 then [Event.kfree] else []))
      else [Event.kzalloc] := by
  intro start stop len pin unpin
  apply events_since_append
  unfold nv_mem_acquire
  simp only [zeroed_context, emit_log, List.append_assoc, List.singleton_append]
  by_cases ha : E.kzalloc k.log = true
  · by_cases hp : pin.1 < 0
    · simp [ha, pin, start, stop, len] at hp ⊢
      simp [hp]
    · by_cases hu : unpin < 0
      · simp [ha, pin, unpin, start, stop, len] at hp hu ⊢
        simp [not_lt.mpr hp, hu]
      · simp [ha, pin, unpin, start, stop, len] at hp hu ⊢
        simp [not_lt.mpr hp, not_lt.mpr hu]
  · simp [ha]

/-- C11. For every address and size and every environment, Probe calls the pin
service at most once; with `pin` the answer to that call, when the descriptor
was allocated and the pin succeeded (`0 ≤ pin.1`) the unpins Probe issues are
exactly one, for the same range start and the page-table handle the pin
stored, and otherwise Probe issues no unpin; so the number of unpins inside
Probe equals the number of successful pins inside Probe. -/
theorem C11_probe_pin_unpin_paired (E : Env) (addr size : Nat) (k : Kernel) :
    let start := addr &&& GPU_PAGE_MASK
    let stop := (addr + size + GPU_PAGE_SIZE - 1) % 2 ^ 64 &&& GPU_PAGE_MASK
    let len := (stop + (2 ^ 64 - start)) % 2 ^ 64
    let pin := E.nvidia_p2p_get_pages (k.log ++ [Event.kzalloc]) start len
      free_callback.nv_mem_dummy_callback
    let ev := events_since k (nv_mem_acquire E addr size k).2.2
    ev.countP is_pin_call ≤ 1 ∧
    ev.countP is_pin_call = (if E.kzalloc k.log = true then 1 else 0) ∧
    (E.kzalloc k.log = true ∧ 0 ≤ pin.1 →
      ev.filter is_unpin_call = [Event.nvidia_p2p_put_pages start pin.2]) ∧
    (¬ (E.kzalloc k.log = true ∧ 0 ≤ pin.1) → ev.filter is_unpin_call = []) ∧
    ev.countP is_unpin_call = (if E.kzalloc k.log = true ∧ 0 ≤ pin.1 then 1 else 0) := by
  intro start stop len pin ev
  have hev : ev =
      if E.kzalloc k.log = true then
        [Event.kzalloc, Event.nvidia_p2p_get_pages start len free_callback.nv_mem_dummy_callback]
          ++ (if pin.1 < 0 then [Event.kfree]
              else [Event.nvidia_p2p_put_pages start pin.2]
                ++ (if E.nvidia_p2p_put_pages (k.log ++ [Event.kzalloc,
                      Event.nvidia_p2p_get_pages start len free_callback.nv_mem_dummy_callback])
                      start pin.2 < 0 then [Event.kfree] else []))
      else [Event.kzalloc] := acquire_events E addr size k
  clear_value ev
  generalize E.nvidia_p2p_put_pages (k.log ++ [Event.kzalloc,
    Event.nvidia_p2p_get_pages start len free_callback.nv_mem_dummy_callback]) start pin.2 = unpin
    at hev
  clear_value pin len
  subst hev
  by_cases ha : E.kzalloc k.log = true
  · by_cases hp : pin.1 < 0
    · simp [ha, hp, not_le.mpr hp, is_pin_call, is_unpin_call, List.countP_cons,
        List.filter_cons]
    · by_cases hu : unpin < 0 <;>
        simp [ha, hp, hu, not_lt.mp hp, is_pin_call, is_unpin_call, List.countP_cons,
          List.filter_cons]
  · simp [ha, is_pin_call, is_unpin_call, List.countP_cons, List.filter_cons]

/-! ## C12: the range Probe computes -/

/-- The value of `GPU_PAGE_SIZE`. -/
theorem GPU_PAGE_SIZE_eq : GPU_PAGE_SIZE = 65536 := by decide

/-- The value of `GPU_PAGE_MASK`, `0xFFFFFFFFFFFF0000`. -/
theorem GPU_PAGE_MASK_eq : GPU_PAGE_MASK = 18446744073709486080 := by decide

/-- Masking a 64-bit value with `GPU_PAGE_MASK` rounds it down to a multiple
of 65536. -/
theorem land_page_mask (x : Nat) (hx : x < 2 ^ 64) :
    x &&& GPU_PAGE_MASK = x - x % 65536 := by
  have hm : GPU_PAGE_MASK = 2 ^ 16 * (2 ^ 48 - 1) := by
    rw [GPU_PAGE_MASK_eq]; norm_num
  have hd : x - x % 65536 = 2 ^ 16 * (x >>> 16) := by
    rw [Nat.shiftRight_eq_div_pow]
    have := Nat.div_add_mod x (2 ^ 16)
    omega
  rw [hm, hd]
  apply Nat.eq_of_testBit_eq
  intro i
  rw [Nat.testBit_and, Nat.testBit_mul_pow_two, Nat.testBit_mul_pow_two,
    Nat.testBit_two_pow_sub_one, Nat.testBit_shiftRight]
  by_cases h16 : 16 ≤ i
  · have h1 : 16 + (i - 16) = i := by omega
    simp only [ge_iff_le, h16, decide_True, Bool.true_and, h1]
    by_cases h64 : i < 64
    · have h2 : i - 16 < 48 := by omega
      simp [h2]
    · have h2 : ¬ (i - 16 < 48) := by omega
      have hb : x.testBit i = false := by
        apply Nat.testBit_lt_two_pow
        calc x < 2 ^ 64 := hx
          _ ≤ 2 ^ i := Nat.pow_le_pow_right (by norm_num) (by omega)
      simp [h2, hb]
  · simp [h16]

/-- The range in a descriptor Probe hands back, as Probe computes it. -/
theorem acquire_owned_range (E : Env) (addr size : Nat) (k k1 : Kernel) (c : nv_mem_context)
    (h : nv_mem_acquire E addr size k = (1, some c, k1)) :
    c.page_virt_start = addr &&& GPU_PAGE_MASK ∧
    c.page_virt_end = (addr + size + GPU_PAGE_SIZE - 1) % 2 ^ 64 &&& GPU_PAGE_MASK ∧
    c.mapped_size = (c.page_virt_end + (2 ^ 64 - c.page_virt_start)) % 2 ^ 64 := by
  unfold nv_mem_acquire at h
  simp only [] at h
  split_ifs at h <;> simp at h
  obtain ⟨rfl, _⟩ := h
  simp [zeroed_context]

/-- The arithmetic of the rounding, for a range that does not wrap. -/
theorem probe_range_arith (addr size : Nat) (h : addr + size + 65535 < 2 ^ 64) :
    let start := addr &&& GPU_PAGE_MASK
    let stop := (addr + size + GPU_PAGE_SIZE - 1) % 2 ^ 64 &&& GPU_PAGE_MASK
    let len := (stop + (2 ^ 64 - start)) % 2 ^ 64
    start = addr - addr % 65536 ∧
    stop = addr + size + 65535 - (addr + size + 65535) % 65536 ∧
    len = stop - start ∧ start ≤ stop := by
  intro start stop len
  have h64 : (2 : Nat) ^ 64 = 18446744073709551616 := by norm_num
  rw [h64] at h
  have hs : start = addr - addr % 65536 := land_page_mask addr (by rw [h64]; omega)
  have hsum : (addr + size + GPU_PAGE_SIZE - 1) % 2 ^ 64 = addr + size + 65535 := by
    rw [GPU_PAGE_SIZE_eq, h64]
    omega
  have he : stop = addr + size + 65535 - (addr + size + 65535) % 65536 := by
    show (addr + size + GPU_PAGE_SIZE - 1) % 2 ^ 64 &&& GPU_PAGE_MASK = _
    rw [hsum]
    exact land_page_mask _ (by rw [h64]; omega)
  have hle : start ≤ stop := by omega
  refine ⟨hs, he, ?_, hle⟩
  show (stop + (2 ^ 64 - start)) % 2 ^ 64 = stop - start
  rw [h64]
  omega

/-- C12. For every `addr` and `size` with `addr + size + 65535 < 2 ^ 64`: the
range every pin inside Probe is asked for, and the range of the descriptor
Probe hands back, satisfy: start and end are multiples of 65536,
`start ≤ addr`, `addr + size ≤ end`, `addr - start < 65536`,
`end - (addr + size) < 65536`, and the mapped size is `end - start`. For
`addr = 0x10000` and `size = 0x8000` the descriptor has start `0x10000`, end
`0x20000` and mapped size `0x10000`. -/
theorem C12_probe_range (E : Env) (addr size : Nat) (k : Kernel)
    (h : addr + size + 65535 < 2 ^ 64) :
    (∀ va len cb, Event.nvidia_p2p_get_pages va len cb ∈
        events_since k (nv_mem_acquire E addr size k).2.2 →
      65536 ∣ va ∧ 65536 ∣ va + len ∧ va ≤ addr ∧ addr + size ≤ va + len ∧
        addr - va < 65536 ∧ va + len - (addr + size) < 65536) ∧
    (∀ c k1, nv_mem_acquire E addr size k = (1, some c, k1) →
      65536 ∣ c.page_virt_start ∧ 65536 ∣ c.page_virt_end ∧ c.page_virt_start ≤ addr ∧
        addr + size ≤ c.page_virt_end ∧ addr - c.page_virt_start < 65536 ∧
        c.page_virt_end - (addr + size) < 65536 ∧
        c.mapped_size = c.page_virt_end - c.page_virt_start ∧
        (addr = 65536 → size = 32768 →
          c.page_virt_start = 65536 ∧ c.page_virt_end = 131072 ∧ c.mapped_size = 65536)) := by
  obtain ⟨hs, he, hl, hle⟩ := probe_range_arith addr size h
  have h64 : (2 : Nat) ^ 64 = 18446744073709551616 := by norm_num
  rw [h64] at h
  constructor
  · intro va len cb hmem
    have hev := acquire_events E addr size k
    simp only [] at hev
    rw [hev] at hmem
    have hva : va = addr &&& GPU_PAGE_MASK ∧
        len = (((addr + size + GPU_PAGE_SIZE - 1) % 2 ^ 64 &&& GPU_PAGE_MASK) +
          (2 ^ 64 - (addr &&& GPU_PAGE_MASK))) % 2 ^ 64 := by
      split_ifs at hmem <;> simp at hmem <;> exact ⟨hmem.1, hmem.2.1⟩
    obtain ⟨hva, hlen⟩ := hva
    rw [hl] at hlen
    rw [hs] at hva
    rw [hs, he] at hlen hle
    subst hva hlen
    refine ⟨?_, ?_, ?_, ?_, ?_, ?_⟩ <;> omega
  · intro c k1 hacq
    obtain ⟨h1, h2, h3⟩ := acquire_owned_range E addr size k k1 c hacq
    rw [h1, h2] at h3
    rw [hl] at h3
    rw [hs] at h1
    rw [he] at h2
    rw [hs, he] at h3 hle
    rw [h1, h2, h3]
    refine ⟨?_, ?_, ?_, ?_, ?_, ?_, rfl, ?_⟩ <;> omega

/-- C12 witness: Probe of address `0x10000` and size `0x8000` in the sample environment. -/
theorem C12_probe_range_witness :
    (∀ va len cb, Event.nvidia_p2p_get_pages va len cb ∈
        events_since sample_kernel (nv_mem_acquire sample_env 65536 32768 sample_kernel).2.2 →
      65536 ∣ va ∧ 65536 ∣ va + len ∧ va ≤ 65536 ∧ 65536 + 32768 ≤ va + len ∧
        65536 - va < 65536 ∧ va + len - (65536 + 32768) < 65536) ∧
    (∀ c k1, nv_mem_acquire sample_env 65536 32768 sample_kernel = (1, some c, k1) →
      65536 ∣ c.page_virt_start ∧ 65536 ∣ c.page_virt_end ∧ c.page_virt_start ≤ 65536 ∧
        65536 + 32768 ≤ c.page_virt_end ∧ 65536 - c.page_virt_start < 65536 ∧
        c.page_virt_end - (65536 + 32768) < 65536 ∧
        c.mapped_size = c.page_virt_end - c.page_virt_start ∧
        ((65536 : Nat) = 65536 → (32768 : Nat) = 32768 →
          c.page_virt_start = 65536 ∧ c.page_virt_end = 131072 ∧ c.mapped_size = 65536)) :=
  C12_probe_range sample_env 65536 32768 sample_kernel (by norm_num)

/-! ## C13: what Pin returns and writes -/

/-- C13. For a null context Pin returns `-EINVAL` and leaves the kernel state
as it was (no call to the Pinning Service). For every non-null descriptor,
with `s` the status the Pinning Service answers to the persistent pin: Pin
makes exactly that one call, returns `s` unchanged when `s < 0` and 0
otherwise, and afterwards the descriptor's `core_context` is the upstream
token, its `page_size` is 65536, and its range (start, end, mapped size) is
unchanged. -/
theorem C13_pin_result (E : Env) (addr size : Nat) (write force : Int) (sg : sg_table)
    (core : Nat) (k : Kernel) :
    nv_mem_get_pages E addr size write force sg none core k = (-EINVAL, none, k) ∧
    ∀ c : nv_mem_context,
      let s := (E.nvidia_p2p_get_pages k.log c.page_virt_start c.mapped_size
        free_callback.nv_get_p2p_free_callback).1
      let r := nv_mem_get_pages E addr size write force sg (some c) core k
      (s < 0 → r.1 = s) ∧ (¬ s < 0 → r.1 = 0) ∧
      events_since k r.2.2 = [Event.nvidia_p2p_get_pages c.page_virt_start c.mapped_size
        free_callback.nv_get_p2p_free_callback] ∧
      ∃ c1, r.2.1 = some c1 ∧ c1.core_context = core ∧ c1.page_size = 65536 ∧
        c1.page_virt_start = c.page_virt_start ∧ c1.page_virt_end = c.page_virt_end ∧
        c1.mapped_size = c.mapped_size := by
  refine ⟨rfl, ?_⟩
  intro c s r
  have hlog := get_pages_log E addr size write force sg c core k
  have hev := events_since_append k _ _ hlog
  refine ⟨?_, ?_, hev, ?_⟩
  · intro hs
    simp only [r, nv_mem_get_pages]
    simp only [s] at hs
    simp [hs]
  · intro hs
    simp only [r, nv_mem_get_pages]
    simp only [s] at hs
    simp [hs]
  · simp only [r, nv_mem_get_pages]
    split_ifs <;> simp [GPU_PAGE_SIZE_eq]

/-! ## C14: the reference count over the explicit lifecycle -/

/-- When Probe returns 1 the reference count is one higher than before. -/
theorem acquire_owned_refcnt (E : Env) (addr size : Nat) (k : Kernel) :
    (nv_mem_acquire E addr size k).1 = 1 →
      (nv_mem_acquire E addr size k).2.2.refcnt = k.refcnt + 1 := by
  unfold nv_mem_acquire
  simp only []
  split_ifs <;> simp


/-- Pin leaves the reference count as it was. -/
theorem get_pages_refcnt (E : Env) (addr size : Nat) (write force : Int) (sg : sg_table)
    (context : Option nv_mem_context) (core : Nat) (k : Kernel) :
    (nv_mem_get_pages E addr size write force sg context core k).2.2.refcnt = k.refcnt := by
  unfold nv_mem_get_pages
  cases context with
  | none => rfl
  | some c =>
    simp only []
    split_ifs <;> simp

/-- Map leaves the reference count as it was. -/
theorem dma_map_refcnt (E : Env) (sg : sg_table) (context : Option nv_mem_context)
    (pdev : Option Nat) (dmasync nmap : Int) (k : Kernel) (m : dma_map_result)
    (h : nv_dma_map E sg context pdev dmasync nmap k = some m) : m.k.refcnt = k.refcnt := by
  unfold nv_dma_map at h
  simp only [] at h
  split at h
  · simp at h
  · split at h
    · simp at h
    · split_ifs at h with h1
      · simp at h; subst h; simp
      · split at h
        · simp at h; subst h; simp
        · split_ifs at h with h2
          · simp at h; subst h; simp
          · split at h
            · simp at h
            · split_ifs at h with h3 h4
              · simp at h; subst h; simp
              · simp at h; subst h
                simp only [sg_alloc_table]
                split_ifs <;> simp
              · simp at h; subst h
                simp only [sg_alloc_table]
                split_ifs <;> simp

/-- C14. For every region on which Probe reports owned, along the explicit
sequence Pin, Map, Unmap, Unpin, Release: Probe raises the reference count by
exactly one, Pin, Map, Unmap and Unpin each leave it unchanged, Release lowers
it by exactly one, and after Release it equals its value before Probe. -/
theorem C14_refcount_lifecycle (E : Env) (addr size core : Nat)
    (write force dmasync nmap r u : Int) (sg0 sg4 : sg_table) (pdev : Option Nat)
    (k0 k1 k2 k3 k4 : Kernel) (c0 c1 c3 c4 : nv_mem_context) (m : dma_map_result)
    (hacq : nv_mem_acquire E addr size k0 = (1, some c0, k1))
    (hpin : nv_mem_get_pages E addr size write force sg0 (some c0) core k1 = (r, some c1, k2))
    (hmap : nv_dma_map E sg0 (some c1) pdev dmasync nmap k2 = some m)
    (hunmap : nv_dma_unmap E m.sg_head (some m.ctx) pdev m.k = (u, some c3, k3))
    (hunpin : nv_mem_put_pages E m.sg_head (some c3) k3 = some (sg4, c4, k4)) :
    k1.refcnt = k0.refcnt + 1 ∧ k2.refcnt = k1.refcnt ∧ m.k.refcnt = k2.refcnt ∧
    k3.refcnt = m.k.refcnt ∧ k4.refcnt = k3.refcnt ∧
    (nv_mem_release (some c4) k4).refcnt = k4.refcnt - 1 ∧
    (nv_mem_release (some c4) k4).refcnt = k0.refcnt := by
  have h1 : k1.refcnt = k0.refcnt + 1 := by
    have h := (acquire_owned_refcnt E addr size k0)
    rw [hacq] at h
    exact h rfl
  have h2 : k2.refcnt = k1.refcnt := by
    have h := get_pages_refcnt E addr size write force sg0 (some c0) core k1
    rw [hpin] at h
    exact h
  have h3 := dma_map_refcnt E sg0 (some c1) pdev dmasync nmap k2 m hmap
  have h4 : k3.refcnt = m.k.refcnt := by
    have h := (unmap_spec E m.sg_head m.ctx pdev m.k).2.2.2
    rw [hunmap] at h
    exact h
  have h5 : k4.refcnt = k3.refcnt := by
    obtain ⟨sg1, kk, ha, _, hb, _⟩ := unpin_spec E m.sg_head c3 k3
    rw [hunpin] at ha
    simp only [Option.some.injEq, Prod.mk.injEq] at ha
    rw [ha.2.2]
    exact hb
  have h6 : (nv_mem_release (some c4) k4).refcnt = k4.refcnt - 1 := by
    simp [nv_mem_release]
  refine ⟨h1, h2, h3, h4, h5, h6, ?_⟩
  rw [h6, h5, h4, h3, h2, h1]
  ring

/-- C14 witness: the explicit lifecycle in the sample environment. -/
theorem C14_refcount_lifecycle_witness :
    sample_kernel_probed.refcnt = sample_kernel.refcnt + 1 ∧
    sample_kernel_pinned.refcnt = sample_kernel_probed.refcnt ∧
    sample_map_result.k.refcnt = sample_kernel_pinned.refcnt ∧
    sample_kernel_unmapped.refcnt = sample_map_result.k.refcnt ∧
    sample_kernel_unpinned.refcnt = sample_kernel_unmapped.refcnt ∧
    (nv_mem_release (some sample_unpinned) sample_kernel_unpinned).refcnt =
      sample_kernel_unpinned.refcnt - 1 ∧
    (nv_mem_release (some sample_unpinned) sample_kernel_unpinned).refcnt =
      sample_kernel.refcnt :=
  C14_refcount_lifecycle sample_env 65536 32768 5 1 0 0 0 0 0 { sgl := [] } { sgl := [] } (some 3)
    sample_kernel sample_kernel_probed sample_kernel_pinned sample_kernel_unmapped
    sample_kernel_unpinned sample_probed sample_pinned sample_mapped sample_unpinned
    sample_map_result (by decide) (by decide) (by decide) (by decide) (by decide)

/-! ## C15: the reference count across the Invalidation Dispatcher -/

/-- With no call back into the client, the dispatcher with explicit upstream
work is the dispatcher run as an actor. -/
theorem free_callback_nested_nil (E : Env) (pdev : Option Nat) (w : World) :
    nv_get_p2p_free_callback_nested E [] w = run_op E pdev Op.dispatcher w := by
  unfold nv_get_p2p_free_callback_nested run_op nv_get_p2p_free_callback
  cases hpt : w.ctx.page_table <;> cases hdm : w.ctx.dma_mapping <;>
    simp [hpt, hdm, run_upstream]

/-- The upstream calls run to completion, and lower the reference count by the
number of `nv_mem_release` among them. -/
theorem run_upstream_refcnt (E : Env) :
    ∀ (nested : List upstream_call) (w : World), ∃ w1, run_upstream E nested w = some w1 ∧
      w1.k.refcnt = w.k.refcnt - (nested.count upstream_call.release : Nat) := by
  intro nested
  induction nested with
  | nil => intro w; exact ⟨w, rfl, by simp⟩
  | cons call rest ih =>
    intro w
    have hstep : ∃ w0, run_upstream_call E call w = some w0 ∧
        w0.k.refcnt = w.k.refcnt - (if call = upstream_call.release then 1 else 0) := by
      cases call with
      | dma_unmap pdev =>
        obtain ⟨w0, h0, _, _, hr, _⟩ := run_op_spec E pdev Op.unmap w
        exact ⟨w0, h0, by simp [hr]⟩
      | put_pages =>
        obtain ⟨w0, h0, _, _, hr, _⟩ := run_op_spec E none Op.unpin w
        exact ⟨w0, h0, by simp [hr]⟩
      | release =>
        exact ⟨_, rfl, by simp [nv_mem_release]⟩
    obtain ⟨w0, h0, hr0⟩ := hstep
    obtain ⟨w1, h1, hr1⟩ := ih w0
    refine ⟨w1, by simp [run_upstream, h0, h1], ?_⟩
    rw [hr1, hr0]
    by_cases hc : call = upstream_call.release
    · subst hc
      simp only [if_true, List.count_cons_self, Nat.cast_add, Nat.cast_one]
      ring
    · have hc2 : (call == upstream_call.release) = false := by simpa using hc
      simp only [hc, if_false, List.count_cons, hc2]
      simp

/-- C15 (as amended). For every descriptor with both handles present and every
list of calls the upstream notification makes back into the client (Unmap,
Unpin, Release) before it returns, one run of the Invalidation Dispatcher
completes and leaves the reference count lower by exactly the number of
Release calls (`nv_mem_release`) made inside the notification: the dispatcher
itself takes one reference on entry and drops that reference on exit. So the
count is unchanged when the notification makes no Release, and exactly one
lower when it makes one. The two frees come after the upstream calls and use
the handles found on entry. A run of `nv_mem_dummy_callback`, which sends no
notification, leaves the count unchanged. -/
theorem C15_dispatcher_refcount_nested (E : Env) (w : World) (nested : List upstream_call)
    (pt : nvidia_p2p_page_table) (dm : nvidia_p2p_dma_mapping)
    (hpt : w.ctx.page_table = some pt) (hdm : w.ctx.dma_mapping = some dm) :
    ∃ w1, nv_get_p2p_free_callback_nested E nested w = some w1 ∧
      w1.k.refcnt = w.k.refcnt - (nested.count upstream_call.release : Nat) ∧
      (upstream_call.release ∉ nested → w1.k.refcnt = w.k.refcnt) ∧
      (nested.count upstream_call.release = 1 → w1.k.refcnt = w.k.refcnt - 1) ∧
      (∃ wn, run_upstream E nested
          { ctx := { w.ctx with is_callback := 1 }, sg_head := w.sg_head,
            k := emit (Event.mem_invalidate_callback E.reg_handle w.ctx.core_context)
              (emit (Event.write_once_is_callback 1) (__module_get w.k)) } = some wn ∧
        wn.k.refcnt = w.k.refcnt + 1 - (nested.count upstream_call.release : Nat) ∧
        w1.k.log = wn.k.log ++ [Event.nvidia_p2p_free_dma_mapping dm,
          Event.nvidia_p2p_free_page_table (some pt)]) ∧
      (∃ k1, nv_mem_dummy_callback E (some w.ctx) w.k = some (w.ctx, module_put k1) ∧
        k1.refcnt = w.k.refcnt + 1 ∧ (module_put k1).refcnt = w.k.refcnt) := by
  obtain ⟨c, sg, k⟩ := w
  obtain ⟨cpt, cdm, core, va, ve, ms, np, ps, cb, sa⟩ := c
  simp only at hpt hdm
  subst hpt hdm
  obtain ⟨wn, hn, hrn⟩ := run_upstream_refcnt E nested
    { ctx := { page_table := some pt, dma_mapping := some dm, core_context := core,
               page_virt_start := va, page_virt_end := ve, mapped_size := ms, npages := np,
               page_size := ps, is_callback := 1, sg_allocated := sa },
      sg_head := sg,
      k := emit (Event.mem_invalidate_callback E.reg_handle core)
        (emit (Event.write_once_is_callback 1) (__module_get k)) }
  simp only [emit_refcnt, module_get_refcnt] at hrn
  refine ⟨_, by simp only [nv_get_p2p_free_callback_nested, hn]; rfl, ?_, ?_, ?_,
    ⟨wn, hn, ?_, ?_⟩, ?_⟩
  · simp only [module_put_refcnt, ite_peer_err_refcnt, emit_refcnt, hrn]
    ring
  · intro hno
    simp only [module_put_refcnt, ite_peer_err_refcnt, emit_refcnt, hrn,
      List.count_eq_zero_of_not_mem hno]
    simp
  · intro hone
    simp only [module_put_refcnt, ite_peer_err_refcnt, emit_refcnt, hrn, hone]
    simp
  · rw [hrn]
  · simp
  · simp only [nv_mem_dummy_callback]
    refine ⟨_, rfl, ?_, ?_⟩ <;> simp

/-- C15 witness: the dispatcher on the sample mapped descriptor, with an
upstream notification that calls Unmap, Unpin and Release before it returns. -/
theorem C15_dispatcher_refcount_nested_witness :
    ∃ w1, nv_get_p2p_free_callback_nested sample_env
        [upstream_call.dma_unmap (some 3), upstream_call.put_pages, upstream_call.release]
        { ctx := sample_mapped, sg_head := sample_table, k := sample_kernel_mapped } = some w1 ∧
      w1.k.refcnt = sample_kernel_mapped.refcnt -
        (([upstream_call.dma_unmap (some 3), upstream_call.put_pages,
          upstream_call.release].count upstream_call.release : Nat) : Int) ∧
      (upstream_call.release ∉ [upstream_call.dma_unmap (some 3), upstream_call.put_pages,
          upstream_call.release] → w1.k.refcnt = sample_kernel_mapped.refcnt) ∧
      ([upstream_call.dma_unmap (some 3), upstream_call.put_pages,
          upstream_call.release].count upstream_call.release = 1 →
        w1.k.refcnt = sample_kernel_mapped.refcnt - 1) ∧
      (∃ wn, run_upstream sample_env
          [upstream_call.dma_unmap (some 3), upstream_call.put_pages, upstream_call.release]
          { ctx := { sample_mapped with is_callback := 1 }, sg_head := sample_table,
            k := emit (Event.mem_invalidate_callback sample_env.reg_handle
                sample_mapped.core_context)
              (emit (Event.write_once_is_callback 1) (__module_get sample_kernel_mapped)) } =
            some wn ∧
        wn.k.refcnt = sample_kernel_mapped.refcnt + 1 -
          (([upstream_call.dma_unmap (some 3), upstream_call.put_pages,
            upstream_call.release].count upstream_call.release : Nat) : Int) ∧
        w1.k.log = wn.k.log ++ [Event.nvidia_p2p_free_dma_mapping sample_dma_mapping,
          Event.nvidia_p2p_free_page_table (some sample_page_table)]) ∧
      (∃ k1, nv_mem_dummy_callback sample_env (some sample_mapped) sample_kernel_mapped =
          some (sample_mapped, module_put k1) ∧
        k1.refcnt = sample_kernel_mapped.refcnt + 1 ∧
        (module_put k1).refcnt = sample_kernel_mapped.refcnt) :=
  C15_dispatcher_refcount_nested sample_env
    { ctx := sample_mapped, sg_head := sample_table, k := sample_kernel_mapped }
    [upstream_call.dma_unmap (some 3), upstream_call.put_pages, upstream_call.release]
    sample_page_table sample_dma_mapping (by decide) (by decide)

/-- C15 counterexample: the sample mapped descriptor, both handles present and
the count at 1, with an upstream notification that makes no call back into the
client before it returns (Release comes after the run, or never): one complete
run of the dispatcher leaves the count at 1, not at 0. -/
theorem C15_counterexample :
    sample_mapped.page_table = some sample_page_table ∧
    sample_mapped.dma_mapping = some sample_dma_mapping ∧
    sample_kernel_mapped.refcnt = 1 ∧
    (nv_get_p2p_free_callback_nested sample_env []
        { ctx := sample_mapped, sg_head := sample_table, k := sample_kernel_mapped }).map
      (fun w1 => w1.k.refcnt) = some 1 ∧
    (nv_get_p2p_free_callback_nested sample_env []
        { ctx := sample_mapped, sg_head := sample_table, k := sample_kernel_mapped }).map
      (fun w1 => w1.k.refcnt) ≠ some (sample_kernel_mapped.refcnt - 1) := by
  refine ⟨by decide, by decide, by decide, by decide, by decide⟩

/-! ## C16: the scatter-gather table is freed by Unpin, once -/

/-- The number of table frees a list of actors issues: one when the table is
allocated on entry and the list contains an Unpin, none otherwise. -/
theorem ops_events_sg_free (E : Env) (pdev : Option Nat) :
    ∀ (ops : List Op) (c : nv_mem_context),
      (ops_events E pdev ops c).countP is_sg_free =
        (if c.sg_allocated ≠ 0 ∧ Op.unpin ∈ ops then 1 else 0) := by
  intro ops
  induction ops with
  | nil => intro c; simp [ops_events]
  | cons op rest ih =>
    intro c
    simp only [ops_events, List.countP_append, ih]
    cases op
    · cases hp : c.page_table <;> cases hd : c.dma_mapping <;>
        simp [op_events, op_ctx, hp, hd, is_sg_free, List.countP_cons]
    · by_cases hcb : c.is_callback = 0 <;> cases hd : c.dma_mapping <;>
        simp [op_events, op_ctx, hcb, hd, is_sg_free, List.countP_cons]
    · by_cases hcb : c.is_callback = 0 <;> by_cases hs : c.sg_allocated = 0 <;>
        simp [op_events, op_ctx, hcb, hs, is_sg_free, List.countP_cons]

/-- After a list of actors that contains an Unpin, `sg_allocated` is zero. -/
theorem ops_ctx_sg_allocated :
    ∀ (ops : List Op) (c : nv_mem_context), Op.unpin ∈ ops →
      (ops_ctx ops c).sg_allocated = 0 := by
  have hkeep : ∀ (ops : List Op) (c : nv_mem_context), c.sg_allocated = 0 →
      (ops_ctx ops c).sg_allocated = 0 := by
    intro ops
    induction ops with
    | nil => intro c h; exact h
    | cons op rest ih =>
      intro c h
      simp only [ops_ctx]
      apply ih
      cases op
      · cases hp : c.page_table <;> cases hd : c.dma_mapping <;> simp [op_ctx, hp, hd, h]
      · simp [op_ctx, h]
      · simp [op_ctx, h]
  intro ops
  induction ops with
  | nil => intro c h; simp at h
  | cons op rest ih =>
    intro c h
    simp only [ops_ctx]
    cases op
    · simp only [List.mem_cons] at h
      rcases h with h | h
      · cases h
      · exact ih _ h
    · simp only [List.mem_cons] at h
      rcases h with h | h
      · cases h
      · exact ih _ h
    · apply hkeep
      by_cases hs : c.sg_allocated = 0 <;> simp [op_ctx, hs]

/-- C16. For every environment: (a) on every non-null descriptor, with the flag
set or clear, Unpin returns, frees the scatter-gather table exactly when
`sg_allocated` is non-zero on entry, and leaves `sg_allocated` zero; (b) Unmap
never frees the table and leaves the descriptor, so `sg_allocated`, as it
was; (c) after one successful Map, every sequence of teardown calls that
contains at least one Unpin, in particular every non-empty sequence of Unpin
calls, runs to completion, frees the table exactly once and leaves
`sg_allocated` zero. -/
theorem C16_sg_table_freed_once (E : Env) (sg0 : sg_table) (c0 : nv_mem_context)
    (pdev : Option Nat) (dmasync nmap : Int) (k0 : Kernel) (m : dma_map_result)
    (hmap : nv_dma_map E sg0 (some c0) pdev dmasync nmap k0 = some m) (hret : m.ret = 0) :
    (∀ (sg : sg_table) (c : nv_mem_context) (k : Kernel), ∃ sg1 c1 k1,
      nv_mem_put_pages E sg (some c) k = some (sg1, c1, k1) ∧ c1.sg_allocated = 0 ∧
      (events_since k k1).countP is_sg_free = (if c.sg_allocated ≠ 0 then 1 else 0)) ∧
    (∀ (sg : sg_table) (c : nv_mem_context) (dev : Option Nat) (k : Kernel),
      (nv_dma_unmap E sg (some c) dev k).2.1 = some c ∧
      (events_since k (nv_dma_unmap E sg (some c) dev k).2.2).countP is_sg_free = 0) ∧
    (∀ (ops : List Op) (dev : Option Nat), Op.unpin ∈ ops →
      ∃ w, run_ops E dev ops { ctx := m.ctx, sg_head := m.sg_head, k := m.k } = some w ∧
        (events_since m.k w.k).countP is_sg_free = 1 ∧ w.ctx.sg_allocated = 0) ∧
    (∀ (n : Nat) (dev : Option Nat), 0 < n →
      ∃ w, run_ops E dev (List.replicate n Op.unpin)
          { ctx := m.ctx, sg_head := m.sg_head, k := m.k } = some w ∧
        (events_since m.k w.k).countP is_sg_free = 1 ∧ w.ctx.sg_allocated = 0) := by
  obtain ⟨_, _, _, _, _, _, hsg, _, _⟩ :=
    dma_map_success_fields E sg0 c0 pdev dmasync nmap k0 m hmap hret
  have hgen : ∀ (ops : List Op) (dev : Option Nat), Op.unpin ∈ ops →
      ∃ w, run_ops E dev ops { ctx := m.ctx, sg_head := m.sg_head, k := m.k } = some w ∧
        (events_since m.k w.k).countP is_sg_free = 1 ∧ w.ctx.sg_allocated = 0 := by
    intro ops dev hmem
    obtain ⟨w, hw, hc, hl, _, _⟩ :=
      run_ops_spec E dev ops { ctx := m.ctx, sg_head := m.sg_head, k := m.k }
    refine ⟨w, hw, ?_, ?_⟩
    · rw [events_since_append m.k w.k _ hl, ops_events_sg_free]
      simp [hsg, hmem]
    · rw [hc]
      exact ops_ctx_sg_allocated ops m.ctx hmem
  refine ⟨?_, ?_, hgen, ?_⟩
  · intro sg c k
    obtain ⟨sg1, k1, h1, h2, _, _⟩ := unpin_spec E sg c k
    refine ⟨sg1, _, k1, h1, ?_, ?_⟩
    · by_cases hs : c.sg_allocated = 0 <;> simp [op_ctx, hs]
    · rw [events_since_append k k1 _ h2]
      by_cases hcb : c.is_callback = 0 <;> by_cases hs : c.sg_allocated = 0 <;>
        simp [op_events, hcb, hs, is_sg_free, List.countP_cons]
  · intro sg c dev k
    obtain ⟨_, h1, h2, _⟩ := unmap_spec E sg c dev k
    refine ⟨h1, ?_⟩
    rw [events_since_append k _ _ h2]
    by_cases hcb : c.is_callback = 0 <;> cases hd : c.dma_mapping <;>
      simp [op_events, hcb, hd, is_sg_free, List.countP_cons]
  · intro n dev hn
    apply hgen
    cases n with
    | zero => exact absurd hn (by decide)
    | succ n => simp [List.replicate_succ]

/-- C16 witness: Map in the sample environment, then teardown. -/
theorem C16_sg_table_freed_once_witness :
    (∀ (sg : sg_table) (c : nv_mem_context) (k : Kernel), ∃ sg1 c1 k1,
      nv_mem_put_pages sample_env sg (some c) k = some (sg1, c1, k1) ∧ c1.sg_allocated = 0 ∧
      (events_since k k1).countP is_sg_free = (if c.sg_allocated ≠ 0 then 1 else 0)) ∧
    (∀ (sg : sg_table) (c : nv_mem_context) (dev : Option Nat) (k : Kernel),
      (nv_dma_unmap sample_env sg (some c) dev k).2.1 = some c ∧
      (events_since k (nv_dma_unmap sample_env sg (some c) dev k).2.2).countP is_sg_free = 0) ∧
    (∀ (ops : List Op) (dev : Option Nat), Op.unpin ∈ ops →
      ∃ w, run_ops sample_env dev ops
          { ctx := sample_map_result.ctx, sg_head := sample_map_result.sg_head,
            k := sample_map_result.k } = some w ∧
        (events_since sample_map_result.k w.k).countP is_sg_free = 1 ∧
        w.ctx.sg_allocated = 0) ∧
    (∀ (n : Nat) (dev : Option Nat), 0 < n →
      ∃ w, run_ops sample_env dev (List.replicate n Op.unpin)
          { ctx := sample_map_result.ctx, sg_head := sample_map_result.sg_head,
            k := sample_map_result.k } = some w ∧
        (events_since sample_map_result.k w.k).countP is_sg_free = 1 ∧
        w.ctx.sg_allocated = 0) :=
  C16_sg_table_freed_once sample_env { sgl := [] } sample_pinned (some 3) 0 0
    sample_kernel_pinned sample_map_result (by decide) (by decide)

end NvPeermem
